import Mathlib

/-! PVT unit conversion and single-region curve evaluation (ECLPvtCommon).

A shallow embedding of `opm/utility/ECLPvtCommon.cpp`.

* `double` values are embedded as rationals: the statements over `ℚ` are
  statements over exact arithmetic.  Division is the total division of `ℚ`
  (`x / 0 = 0`), so statements that depend on a quotient being a genuine
  inverse carry an explicit non-zero hypothesis.
* Identities that hold over exact arithmetic only are refuted for the
  program over `Binary64`, the arithmetic of doubles with rounding after
  every operation (section `OnDoubles`).
* A `std::function<double(double)>` converter is a function `ℚ → ℚ`.
* A `std::vector<double>` is a `List ℚ`.
* A C++ exception, a failed `assert` and an out-of-range array access are
  the error values of `Except Failure`.
-/

set_option autoImplicit false

namespace Opm

/-! ## Collaborators that the translation unit only consumes -/

namespace ECLUnits

/-- Modelled from the spec: the unit-system interface of `ECLUnitHandling.hpp`
is not part of the translation unit.  A unit system exposes the six base
scale accessors `pressure`, `density`, `viscosity`, `reservoirVolume`,
`surfaceVolumeLiquid` and `surfaceVolumeGas`, and is immutable. -/
structure UnitSystem where
  density : ℚ
  pressure : ℚ
  reservoirVolume : ℚ
  surfaceVolumeGas : ℚ
  surfaceVolumeLiquid : ℚ
  viscosity : ℚ
  deriving DecidableEq

/-- All six base scales of the unit system are different from zero. -/
def UnitSystem.NonZero (usys : UnitSystem) : Prop :=
  usys.density ≠ 0 ∧ usys.pressure ≠ 0 ∧ usys.reservoirVolume ≠ 0 ∧
    usys.surfaceVolumeGas ≠ 0 ∧ usys.surfaceVolumeLiquid ≠ 0 ∧ usys.viscosity ≠ 0

instance (usys : UnitSystem) : Decidable usys.NonZero := by
  unfold UnitSystem.NonZero; infer_instance

end ECLUnits

namespace unit
namespace convert

/-- Modelled from the spec: `Opm::unit::convert::from` lives in the units
header of the parser library.  The spec fixes it as `SI = native * scale`. -/
def «from» (q : ℚ) (uscale : ℚ) : ℚ := q * uscale

end convert
end unit

namespace ECLPVT

open ECLUnits

/-- The `ConvertUnits::Converter` type: `std::function<double(double)>`. -/
abbrev Converter : Type := ℚ → ℚ

/-! ## Derived scale factors (anonymous namespace of the source) -/

/-- Scale `B = [rVolume / sVolume(Liquid)]`. -/
def fvfScale (usys : UnitSystem) : ℚ :=
  usys.reservoirVolume / usys.surfaceVolumeLiquid

/-- Scale `B = [rVolume / sVolume(Gas)]`. -/
def fvfGasScale (usys : UnitSystem) : ℚ :=
  usys.reservoirVolume / usys.surfaceVolumeGas

/-- Scale `Rs = [sVolume(Gas) / sVolume(Liquid)]`. -/
def rsScale (usys : UnitSystem) : ℚ :=
  usys.surfaceVolumeGas / usys.surfaceVolumeLiquid

/-- Scale `Rv = [sVolume(Liq) / sVolume(Gas)]`. -/
def rvScale (usys : UnitSystem) : ℚ :=
  usys.surfaceVolumeLiquid / usys.surfaceVolumeGas

/-- The closure `[uscale](const double q) { return from(q, uscale); }`. -/
def createConverterToSI (uscale : ℚ) : Converter :=
  fun q => unit.convert.«from» q uscale

/-! ## `CreateUnitConverter::ToSI` -/

namespace CreateUnitConverter
namespace ToSI

def density (usys : UnitSystem) : Converter :=
  createConverterToSI usys.density

def pressure (usys : UnitSystem) : Converter :=
  createConverterToSI usys.pressure

def compressibility (usys : UnitSystem) : Converter :=
  createConverterToSI (1 / usys.pressure)

def disGas (usys : UnitSystem) : Converter :=
  createConverterToSI (rsScale usys)

def vapOil (usys : UnitSystem) : Converter :=
  createConverterToSI (rvScale usys)

def recipFvf (usys : UnitSystem) : Converter :=
  createConverterToSI (1 / fvfScale usys)

/-- Converter for `d(1/B)/dp`. -/
def recipFvfDerivPress (usys : UnitSystem) : Converter :=
  let B_scale := fvfScale usys
  let P_scale := usys.pressure
  createConverterToSI (1 / (B_scale * P_scale))

/-- Converter for `d(1/B)/dRv`. -/
def recipFvfDerivVapOil (usys : UnitSystem) : Converter :=
  let B_scale := fvfScale usys
  let Rv_scale := rvScale usys
  createConverterToSI (1 / (B_scale * Rv_scale))

def recipFvfVisc (usys : UnitSystem) : Converter :=
  let Bscale := fvfScale usys
  let visc_scale := usys.viscosity
  createConverterToSI (1 / (Bscale * visc_scale))

/-- Converter for `d(1/(B*mu))/dp`. -/
def recipFvfViscDerivPress (usys : UnitSystem) : Converter :=
  let B_scale := fvfScale usys
  let P_scale := usys.pressure
  let mu_scale := usys.viscosity
  createConverterToSI (1 / (B_scale * mu_scale * P_scale))

/-- Converter for `d(1/(B*mu))/dRv`. -/
def recipFvfViscDerivVapOil (usys : UnitSystem) : Converter :=
  let B_scale := fvfScale usys
  let mu_scale := usys.viscosity
  let Rv_scale := rvScale usys
  createConverterToSI (1 / (B_scale * mu_scale * Rv_scale))

def recipFvfGas (usys : UnitSystem) : Converter :=
  createConverterToSI (1 / fvfGasScale usys)

/-- Converter for `d(1/B)/dp`. -/
def recipFvfGasDerivPress (usys : UnitSystem) : Converter :=
  let B_scale := fvfGasScale usys
  let P_scale := usys.pressure
  createConverterToSI (1 / (B_scale * P_scale))

/-- Converter for `d(1/B)/dRv`. -/
def recipFvfGasDerivVapOil (usys : UnitSystem) : Converter :=
  let B_scale := fvfGasScale usys
  let Rv_scale := rvScale usys
  createConverterToSI (1 / (B_scale * Rv_scale))

def recipFvfGasVisc (usys : UnitSystem) : Converter :=
  let Bscale := fvfGasScale usys
  let visc_scale := usys.viscosity
  createConverterToSI (1 / (Bscale * visc_scale))

/-- Converter for `d(1/(B*mu))/dp`. -/
def recipFvfGasViscDerivPress (usys : UnitSystem) : Converter :=
  let B_scale := fvfGasScale usys
  let P_scale := usys.pressure
  let mu_scale := usys.viscosity
  createConverterToSI (1 / (B_scale * mu_scale * P_scale))

/-- Converter for `d(1/(B*mu))/dRv`. -/
def recipFvfGasViscDerivVapOil (usys : UnitSystem) : Converter :=
  let B_scale := fvfGasScale usys
  let mu_scale := usys.viscosity
  let Rv_scale := rvScale usys
  createConverterToSI (1 / (B_scale * mu_scale * Rv_scale))

/-- The seventeen factory operations, in the order of the source. -/
def all : List (UnitSystem → Converter) :=
  [density, pressure, compressibility, disGas, vapOil,
   recipFvf, recipFvfDerivPress, recipFvfDerivVapOil,
   recipFvfVisc, recipFvfViscDerivPress, recipFvfViscDerivVapOil,
   recipFvfGas, recipFvfGasDerivPress, recipFvfGasDerivVapOil,
   recipFvfGasVisc, recipFvfGasViscDerivPress, recipFvfGasViscDerivVapOil]

end ToSI
end CreateUnitConverter

end ECLPVT

/-! ## Failures -/

/-- The ways in which an operation of this translation unit can fail to
return a value. -/
inductive Failure where
  /-- An exception `std::invalid_argument` with message `what`. -/
  | invalid_argument (what : String)
  /-- A failed `assert`. -/
  | assertion (what : String)
  /-- An array element outside the array is accessed. -/
  | out_of_bounds
  /-- The unit-system registry rejects the unit-system code. -/
  | unknown_unit_system
  deriving DecidableEq, Repr

/-! ## The interpolation backend -/

namespace Interp1D

/-- Modelled from the spec: the generic table lookup/interpolation primitive
is an external collaborator.  It is taken as a parameter: an arbitrary rule
that classifies a query point against the stored abscissae and evaluates a
column of the stored table at a classified point. -/
structure Primitive (EvalPt : Type) where
  classifyPoint : List ℚ → ℚ → EvalPt
  evaluate : List ℚ → List (List ℚ) → Nat → EvalPt → ℚ

/-- Modelled from the spec: the backend object held by the curve evaluator
(class `Interp1D::PiecewisePolynomial::Linear`, declared elsewhere).  It
stores the independent variable `x_` and the dependent columns `y_` and
answers `classifyPoint` and `evaluate`. -/
structure Linear (EvalPt : Type) where
  x_ : List ℚ
  y_ : List (List ℚ)
  classifyPoint : ℚ → EvalPt
  evaluate : Nat → EvalPt → ℚ

variable {EvalPt : Type}

/-- Modelled from the spec: the backend constructor.  The independent
variable `[xBegin, xEnd)` and, for each column iterator, as many entries as
there are abscissae are converted with `xtransform` and with the column's
own transform while they are stored ("all stored values are immediately
normalized to SI"). -/
def Linear.construct (prim : Primitive EvalPt) (x : List ℚ) (colIt : List (List ℚ))
    (xtransform : ℚ → ℚ) (columnTransform : List (ℚ → ℚ)) : Linear EvalPt :=
  let x_ := x.map xtransform
  let y_ := List.zipWith (fun (col : List ℚ) (t : ℚ → ℚ) => (col.take x.length).map t)
    colIt columnTransform
  { x_ := x_, y_ := y_,
    classifyPoint := prim.classifyPoint x_,
    evaluate := prim.evaluate x_ y_ }

/-- Modelled from the spec: accessor `independentVariable()`. -/
def Linear.independentVariable (self : Linear EvalPt) : List ℚ := self.x_

/-- Modelled from the spec: accessor `resultVariable(col)`, a copy of one
stored column; asking for a column the table does not have is an access
outside the table. -/
def Linear.resultVariable (self : Linear EvalPt) (col : Nat) : Except Failure (List ℚ) :=
  match self.y_[col]? with
  | some y => .ok y
  | none => .error .out_of_bounds

/-- Modelled from the spec: a concrete instance of the external primitive,
used to evaluate the operations on concrete tables: piecewise linear
interpolation between neighbouring nodes, linear extrapolation outside the
table.  A classified point is the index of the interval together with the
query point. -/
def piecewiseLinear : Primitive (Nat × ℚ) where
  classifyPoint := fun x p => (((x.drop 1).dropLast.filter (fun xi => xi ≤ p)).length, p)
  evaluate := fun x y col pt =>
    let c := y.getD col []
    let i := pt.1
    c.getD i 0 + (pt.2 - x.getD i 0) * ((c.getD (i + 1) 0 - c.getD i 0) / (x.getD (i + 1) 0 - x.getD i 0))

/-- The primitive reproduces the stored ordinates at the stored abscissae of
the table `(x, y)`. -/
def Primitive.ExactAtNodes (prim : Primitive EvalPt) (x : List ℚ) (y : List (List ℚ)) : Prop :=
  ∀ (col i : Nat) (ys : List ℚ) (xi yi : ℚ),
    y[col]? = some ys → x[i]? = some xi → ys[i]? = some yi →
    prim.evaluate x y col (prim.classifyPoint x xi) = yi

end Interp1D

namespace FlowDiagnostics

/-- Type `Graph == pair<vector<double>, vector<double>>`. -/
abbrev Graph : Type := List ℚ × List ℚ

end FlowDiagnostics

namespace ECLPVT

open ECLUnits

/-- Modelled from the spec: the selector of `getPvtCurve`.  The source names
the enumerators `FVF` and `Viscosity`; the assertion that opens `getPvtCurve`
implies that the type has further values, which are collected in `other`. -/
inductive RawCurve where
  | FVF
  | Viscosity
  | other (raw : Nat)
  deriving DecidableEq, Repr

/-- Modelled from the spec: the `ConvertUnits` aggregate (declared in the
header): one converter for the independent variable and one per column. -/
structure ConvertUnits where
  indep : Converter
  column : List Converter

/-- The evaluator for single-region tables: its only member is the
interpolation backend `interp_`. -/
structure PVDx (EvalPt : Type) where
  interp_ : Interp1D.Linear EvalPt

namespace PVDx

variable {EvalPt : Type}

/-- The constructor `PVDx(xBegin, xEnd, convert, colIt)`: forwards to the
backend constructor with `convert.indep` and `convert.column`. -/
def construct (prim : Interp1D.Primitive EvalPt) (x : List ℚ) (convert : ConvertUnits)
    (colIt : List (List ℚ)) : PVDx EvalPt :=
  { interp_ := Interp1D.Linear.construct prim x colIt convert.indep convert.column }

/-- Modelled from the spec: header-inline helper, the interpolated reciprocal
FVF (column 0) at a classified point. -/
def fvf_recip (self : PVDx EvalPt) (pt : EvalPt) : ℚ := self.interp_.evaluate 0 pt

/-- Modelled from the spec: header-inline helper, the interpolated reciprocal
FVF*viscosity (column 1) at a classified point. -/
def fvf_mu_recip (self : PVDx EvalPt) (pt : EvalPt) : ℚ := self.interp_.evaluate 1 pt

/-- Modelled from the spec: header-inline helper.  Visits the query
pressures in order, classifies each and appends the value of `calculate`
at the classified point to the result. -/
def computeQuantity (self : PVDx EvalPt) (p : List ℚ) (calculate : EvalPt → ℚ) : List ℚ :=
  p.foldl (fun result pi => result ++ [calculate (self.interp_.classifyPoint pi)]) []

def formationVolumeFactor (self : PVDx EvalPt) (p : List ℚ) : List ℚ :=
  self.computeQuantity p (fun pt =>
    -- 1 / (1 / B)
    1 / self.fvf_recip pt)

def viscosity (self : PVDx EvalPt) (p : List ℚ) : List ℚ :=
  self.computeQuantity p (fun pt =>
    -- (1 / B) / (1 / (B * mu)
    self.fvf_recip pt / self.fvf_mu_recip pt)

/-- The loop `for (auto n = y.size(), i = 0*n; i < n; ++i) y[i] = b[i] / y[i];`. -/
def viscosityLoop (b y : List ℚ) : List ℚ :=
  (List.range y.length).foldl (fun y i => y.set i (b.getD i 0 / y.getD i 0)) y

def getPvtCurve (self : PVDx EvalPt) (curve : RawCurve) : Except Failure FlowDiagnostics.Graph := do
  if ¬ (curve = RawCurve.FVF ∨ curve = RawCurve.Viscosity) then
    throw (Failure.assertion "(curve == RawCurve::FVF) || (curve == RawCurve::Viscosity)")
  let colID : Nat := if curve = RawCurve.FVF then 0 else 1
  let x := self.interp_.independentVariable
  let y ← self.interp_.resultVariable colID
  if ¬ (x.length = y.length) then
    throw (Failure.assertion "Setup Error")
  -- Post-process ordinates according to which curve is requested.
  if curve = RawCurve.FVF then
    -- y == 1/B.  Convert to proper FVF.
    return (x, y.map (fun yi => 1 / yi))
  else
    -- y == 1/(B*mu).
    let b ← self.interp_.resultVariable 0 -- 1/B
    if ¬ (b.length = y.length) then
      throw (Failure.assertion "Setup Error")
    return (x, viscosityLoop b y)

end PVDx

/-! ## Surface mass density -/

/-- Modelled from the spec: the phase identifier (declared in its own
header), an enumeration `Aqua = 0`, `Liquid = 1`, `Vapour = 2` over an
integer, so that any other integer can arrive as a phase value too. -/
structure ECLPhaseIndex where
  raw : Int
  deriving DecidableEq, Repr

namespace ECLPhaseIndex

def Aqua : ECLPhaseIndex := ⟨0⟩

def Liquid : ECLPhaseIndex := ⟨1⟩

def Vapour : ECLPhaseIndex := ⟨2⟩

end ECLPhaseIndex

/-- Modelled from the spec: the result-file reader, a named-keyword flat
array accessor for `int` and for `double` data.  A keyword that the file
does not have yields the empty array. -/
structure ECLInitFileData where
  keywordDataInt : String → List Int
  keywordDataDouble : String → List ℚ

/-- The file-format constants of `ecl_kw_magic.h` and the unit-system
registry, both supplied by collaborators. -/
structure Collaborators where
  TABDIMS_IBDENS_OFFSET_ITEM : Nat
  TABDIMS_NTDENS_ITEM : Nat
  INTEHEAD_KW : String
  INTEHEAD_UNIT_INDEX : Nat
  /-- A rejected code is `none`. -/
  createUnitSystem : Int → Option UnitSystem

/-- Conversion of an `int` to `std::size_t` (64 bits). -/
def toSizeT (i : Int) : Nat := (i % (2 ^ 64 : Int)).toNat

/-- The index expression `start + nreg*(col + k)`: `start` and `nreg` are
`int`, `col` is `std::size_t`, so the arithmetic is that of `std::size_t`. -/
def densIndex (start nreg : Int) (col k : Nat) : Nat :=
  (toSizeT start + (toSizeT nreg * ((col + k) % 2 ^ 64)) % 2 ^ 64) % 2 ^ 64

/-- The element access `v[i]` of a `std::vector`. -/
def elementAt {α : Type} (v : List α) (i : Nat) : Except Failure α :=
  match v[i]? with
  | some a => .ok a
  | none => .error .out_of_bounds

/-- The column lambda: `0 <-> oil, 1 <-> water, 2 <-> gas`. -/
def phaseColumn (phase : ECLPhaseIndex) : Except Failure Nat :=
  if phase = ECLPhaseIndex.Aqua then .ok 1
  else if phase = ECLPhaseIndex.Liquid then .ok 0
  else if phase = ECLPhaseIndex.Vapour then .ok 2
  else .error (Failure.invalid_argument "Unsupported Phase ID")

/-- The range constructor `std::vector<double> { &tab[first], &tab[last] }`. -/
def pointerRange (tab : List ℚ) (first last : Nat) : Except Failure (List ℚ) :=
  if first ≤ last ∧ last ≤ tab.length then .ok ((tab.drop first).take (last - first))
  else .error .out_of_bounds

def surfaceMassDensity (ext : Collaborators) (init : ECLInitFileData)
    (phase : ECLPhaseIndex) : Except Failure (List ℚ) := do
  let col ← phaseColumn phase
  let tabdims := init.keywordDataInt "TABDIMS"
  let tab := init.keywordDataDouble "TAB"
  -- Subtract one to account for 1-based indices.
  let start := (← elementAt tabdims ext.TABDIMS_IBDENS_OFFSET_ITEM) - 1
  let nreg ← elementAt tabdims ext.TABDIMS_NTDENS_ITEM
  let rho ← pointerRange tab (densIndex start nreg col 0) (densIndex start nreg col 1)
  let ih := init.keywordDataInt ext.INTEHEAD_KW
  let u ← match ext.createUnitSystem (← elementAt ih ext.INTEHEAD_UNIT_INDEX) with
    | some u => pure u
    | none => throw Failure.unknown_unit_system
  let dens_scale := u.density
  return rho.map (fun rho_i => unit.convert.«from» rho_i dens_scale)

/-- The indices of the array that the range constructor
`std::vector<double> { &tab[first], &tab[last] }` dereferences while it
copies: `first, first + 1, ..., last - 1`. -/
def pointerRangeReads (first last : Nat) : List Nat :=
  List.range' first (last - first)

/-- The indices of `TAB` that `surfaceMassDensity` reads: the function up to
the construction of `rho`, which is its only access to the entries of `TAB`,
with the indices that are dereferenced in the place of their values. -/
def surfaceMassDensityTabReads (ext : Collaborators) (init : ECLInitFileData)
    (phase : ECLPhaseIndex) : Except Failure (List Nat) := do
  let col ← phaseColumn phase
  let tabdims := init.keywordDataInt "TABDIMS"
  let start := (← elementAt tabdims ext.TABDIMS_IBDENS_OFFSET_ITEM) - 1
  let nreg ← elementAt tabdims ext.TABDIMS_NTDENS_ITEM
  return pointerRangeReads (densIndex start nreg col 0) (densIndex start nreg col 1)

/-! ## Sample data -/

/-- A sample unit system with pairwise different, non-unit base scales. -/
def sampleUnits : UnitSystem :=
  { density := 16, pressure := 100000, reservoirVolume := 3,
    surfaceVolumeGas := 5, surfaceVolumeLiquid := 7, viscosity := 1 / 1000 }

/-- The unit system of the FVF scenario: `reservoirVolume = 1.0`,
`surfaceVolumeLiquid = 0.8`, every other base scale equal to one. -/
def scenarioUnits : UnitSystem :=
  { density := 1, pressure := 1, reservoirVolume := 1,
    surfaceVolumeGas := 1, surfaceVolumeLiquid := 4 / 5, viscosity := 1 }

/-- The evaluator of the FVF scenario over a given interpolation primitive:
native pressures `[100, 200]`, reciprocal-FVF column `[1.25, 1.0]`,
converted with the `pressure` and `recipFvf` converters. -/
def scenarioPVDx {EvalPt : Type} (prim : Interp1D.Primitive EvalPt) : PVDx EvalPt :=
  PVDx.construct prim [100, 200]
    { indep := CreateUnitConverter.ToSI.pressure scenarioUnits,
      column := [CreateUnitConverter.ToSI.recipFvf scenarioUnits] }
    [[5 / 4, 1]]

/-- A sample evaluator with three rows and both columns, in `sampleUnits`. -/
def samplePVDx : PVDx (Nat × ℚ) :=
  PVDx.construct Interp1D.piecewiseLinear [100, 200, 300]
    { indep := CreateUnitConverter.ToSI.pressure sampleUnits,
      column := [CreateUnitConverter.ToSI.recipFvf sampleUnits,
                 CreateUnitConverter.ToSI.recipFvfVisc sampleUnits] }
    [[5 / 4, 1, 1 / 2], [3, 2, 1]]

/-- Sample collaborators: the item numbers of the file format and a registry
that knows the unit-system code `1` (all scales one) and the code `2`
(`sampleUnits`). -/
def sampleCollaborators : Collaborators where
  TABDIMS_IBDENS_OFFSET_ITEM := 18
  TABDIMS_NTDENS_ITEM := 19
  INTEHEAD_KW := "INTEHEAD"
  INTEHEAD_UNIT_INDEX := 2
  createUnitSystem := fun code =>
    if code = 1 then some ⟨1, 1, 1, 1, 1, 1⟩
    else if code = 2 then some sampleUnits
    else none

/-- The result data of the density scenario: start offset 5 (1-based), region
count 2, oil densities `[850, 860]` at the indices 4 and 5 of `TAB`, followed
by the water and gas blocks; unit-system code `1`. -/
def scenarioInit : ECLInitFileData where
  keywordDataInt := fun kw =>
    if kw = "TABDIMS" then List.replicate 18 0 ++ [5, 2]
    else if kw = "INTEHEAD" then [0, 0, 1]
    else []
  keywordDataDouble := fun kw =>
    if kw = "TAB" then [0, 0, 0, 0, 850, 860, 1000, 1010, 1, 2]
    else []

/-- Result data without any fluid region: start offset 5 (1-based), region
count 0, the same `TAB` as in the density scenario. -/
def emptyRegionInit : ECLInitFileData where
  keywordDataInt := fun kw =>
    if kw = "TABDIMS" then List.replicate 18 0 ++ [5, 0]
    else if kw = "INTEHEAD" then [0, 0, 1]
    else []
  keywordDataDouble := fun kw =>
    if kw = "TAB" then [0, 0, 0, 0, 850, 860, 1000, 1010, 1, 2]
    else []

end ECLPVT

/-! ## Arithmetic on doubles

The statements over `ℚ` say what the operations compute when no operation
rounds.  Where a statement chains several operations, the source rounds after
each of them.  The definitions below give the rounded arithmetic and, over
it, the operations of the source that such statements are about. -/

/-- A binary floating-point number `mant * 2 ^ exp` with a mantissa of 53
bits: zero is `⟨0, 0⟩`, every other value has `2 ^ 52 ≤ |mant| < 2 ^ 53`.
The exponent is not bounded, so the operations below agree with those of an
IEEE-754 `double` (round to nearest, ties to even) as long as operands and
results are zero or normal numbers; infinities, NaN and subnormal numbers are
not represented. -/
structure Binary64 where
  mant : Int
  exp : Int
  deriving DecidableEq, Repr

namespace Binary64

/-- Number of binary digits of `n`, by repeated halving (`fuel` bounds the
number of halvings). -/
def bitLengthAux : Nat → Nat → Nat
  | 0, _ => 0
  | fuel + 1, n => if n = 0 then 0 else bitLengthAux fuel (n / 2) + 1

/-- Number of binary digits of `n`; `n` halvings always suffice. -/
def bitLength (n : Nat) : Nat := bitLengthAux n n

/-- The quotient `n / 2 ^ k` rounded to the nearest integer, ties to even. -/
def roundShift (n k : Nat) : Nat :=
  if k = 0 then n
  else
    let q := n / 2 ^ k
    let r := n % 2 ^ k
    let half := 2 ^ (k - 1)
    if half < r ∨ (r = half ∧ q % 2 = 1) then q + 1 else q

/-- The number `± n * 2 ^ e` rounded to 53 bits, to nearest, ties to even. -/
def round53 (neg : Bool) (n : Nat) (e : Int) : Binary64 :=
  if n = 0 then ⟨0, 0⟩
  else
    let len := bitLength n
    if len ≤ 53 then
      ⟨(if neg then -1 else 1) * ((n * 2 ^ (53 - len) : Nat) : Int),
        e - ((53 - len : Nat) : Int)⟩
    else
      let k := len - 53
      let m := roundShift n k
      if m = 2 ^ 53 then ⟨(if neg then -1 else 1) * ((2 ^ 52 : Nat) : Int), e + (k : Int) + 1⟩
      else ⟨(if neg then -1 else 1) * (m : Int), e + (k : Int)⟩

/-- The product, rounded: the product of the mantissas is exact. -/
def mul (x y : Binary64) : Binary64 :=
  round53 (decide (x.mant * y.mant < 0)) (x.mant * y.mant).natAbs (x.exp + y.exp)

/-- The quotient, rounded: the quotient of the mantissas is taken to more
than 55 bits and a last bit records whether a remainder is left, so that
rounding it to 53 bits rounds the exact quotient.  A zero divisor, for which
a `double` gives an infinity or NaN, gives zero. -/
def div (x y : Binary64) : Binary64 :=
  if y.mant = 0 then ⟨0, 0⟩
  else
    let n := x.mant.natAbs * 2 ^ 56
    let d := y.mant.natAbs
    let sticky := if n % d = 0 then 0 else 1
    round53 (decide (x.mant < 0) != decide (y.mant < 0)) (2 * (n / d) + sticky)
      (x.exp - y.exp - 57)

/-- The difference, rounded: the difference is exact over the smaller
exponent. -/
def sub (x y : Binary64) : Binary64 :=
  let e := min x.exp y.exp
  let m := x.mant * 2 ^ (x.exp - e).toNat - y.mant * 2 ^ (y.exp - e).toNat
  round53 (decide (m < 0)) m.natAbs e

instance : Mul Binary64 := ⟨mul⟩

instance : Div Binary64 := ⟨div⟩

instance : Sub Binary64 := ⟨sub⟩

instance (n : Nat) : OfNat Binary64 n := ⟨round53 false n 0⟩

/-- The rational number that the floating-point number stands for. -/
def toRat (x : Binary64) : ℚ := (x.mant : ℚ) * (2 : ℚ) ^ x.exp

/-- The number is zero or a normal number of the `double` format: canonical
mantissa and `2 ^ (-1022) ≤ |x| < 2 ^ 1024`. -/
def InRange (x : Binary64) : Prop :=
  x = ⟨0, 0⟩ ∨
    (2 ^ 52 ≤ x.mant.natAbs ∧ x.mant.natAbs < 2 ^ 53 ∧ -1074 ≤ x.exp ∧ x.exp ≤ 971)

instance (x : Binary64) : Decidable x.InRange := by
  unfold InRange; infer_instance

end Binary64

/-! The operations of the source on doubles: the same expressions as in
`ECLPVT`, each arithmetic operation rounded. -/

namespace OnDoubles

/-- Modelled from the spec: the six base scale accessors of a unit system,
as doubles. -/
structure UnitSystem where
  density : Binary64
  pressure : Binary64
  reservoirVolume : Binary64
  surfaceVolumeGas : Binary64
  surfaceVolumeLiquid : Binary64
  viscosity : Binary64

/-- Modelled from the spec: `Opm::unit::convert::from`, `SI = native * scale`,
one rounded multiplication. -/
def «from» (q : Binary64) (uscale : Binary64) : Binary64 := q * uscale

/-- Scale `B = [rVolume / sVolume(Liquid)]`. -/
def fvfScale (usys : UnitSystem) : Binary64 :=
  usys.reservoirVolume / usys.surfaceVolumeLiquid

/-- Scale `B = [rVolume / sVolume(Gas)]`. -/
def fvfGasScale (usys : UnitSystem) : Binary64 :=
  usys.reservoirVolume / usys.surfaceVolumeGas

/-- Scale `Rv = [sVolume(Liq) / sVolume(Gas)]`. -/
def rvScale (usys : UnitSystem) : Binary64 :=
  usys.surfaceVolumeLiquid / usys.surfaceVolumeGas

/-- The closure `[uscale](const double q) { return from(q, uscale); }`. -/
def createConverterToSI (uscale : Binary64) : Binary64 → Binary64 :=
  fun q => «from» q uscale

def vapOil (usys : UnitSystem) : Binary64 → Binary64 :=
  createConverterToSI (rvScale usys)

def recipFvf (usys : UnitSystem) : Binary64 → Binary64 :=
  createConverterToSI (1 / fvfScale usys)

def recipFvfGasVisc (usys : UnitSystem) : Binary64 → Binary64 :=
  let Bscale := fvfGasScale usys
  let visc_scale := usys.viscosity
  createConverterToSI (1 / (Bscale * visc_scale))

/-- Converter for `d(1/(B*mu))/dRv`. -/
def recipFvfGasViscDerivVapOil (usys : UnitSystem) : Binary64 → Binary64 :=
  let B_scale := fvfGasScale usys
  let mu_scale := usys.viscosity
  let Rv_scale := rvScale usys
  createConverterToSI (1 / (B_scale * mu_scale * Rv_scale))

/-- The method `PVDx::formationVolumeFactor`: one value `1.0 / fvf_recip(pt)`
per query pressure.  The interpolation belongs to the external primitive:
`fvf_recip` is the interpolated reciprocal FVF as a function of the query
pressure. -/
def formationVolumeFactor (fvf_recip : Binary64 → Binary64) (p : List Binary64) :
    List Binary64 :=
  p.map (fun pi => 1 / fvf_recip pi)

/-- The method `PVDx::viscosity`: one value `fvf_recip(pt) / fvf_mu_recip(pt)`
per query pressure, the two interpolants as functions of the query
pressure. -/
def viscosity (fvf_recip fvf_mu_recip : Binary64 → Binary64) (p : List Binary64) :
    List Binary64 :=
  p.map (fun pi => fvf_recip pi / fvf_mu_recip pi)

/-- The FVF branch of `PVDx::getPvtCurve` on the stored column `y`:
`for (auto& yi : y) yi = 1.0 / yi;`. -/
def getPvtCurveFVF (y : List Binary64) : List Binary64 :=
  y.map (fun yi => 1 / yi)

/-- The unit system `ECLPVT.sampleUnits` in doubles; its viscosity scale is
the double nearest to `0.001`. -/
def sampleUnits : UnitSystem :=
  { density := 16, pressure := 100000, reservoirVolume := 3,
    surfaceVolumeGas := 5, surfaceVolumeLiquid := 7, viscosity := 1 / 1000 }

end OnDoubles

/-! # Properties -/

namespace ECLPVT

open ECLUnits CreateUnitConverter

/-! ## The unit converter factory -/

/-- Every converter made by `createConverterToSI` multiplies by its scale. -/
theorem createConverterToSI_apply (uscale x : ℚ) :
    createConverterToSI uscale x = x * uscale := rfl

/-- C1: over exact arithmetic, for every unit system with non-zero base scales
and every value `x`, each base or liquid-phase factory operation returns `x`
times the scale the specification lists for it, the derived scales written
out in the base scales: `fvfScale = reservoirVolume / surfaceVolumeLiquid`,
`rsScale = surfaceVolumeGas / surfaceVolumeLiquid` and
`rvScale = surfaceVolumeLiquid / surfaceVolumeGas`. -/
theorem toSI_liquid_scale (usys : UnitSystem) (_h : usys.NonZero) (x : ℚ) :
    ToSI.density usys x = x * usys.density ∧
    ToSI.pressure usys x = x * usys.pressure ∧
    ToSI.compressibility usys x = x * (1 / usys.pressure) ∧
    ToSI.disGas usys x = x * (usys.surfaceVolumeGas / usys.surfaceVolumeLiquid) ∧
    ToSI.vapOil usys x = x * (usys.surfaceVolumeLiquid / usys.surfaceVolumeGas) ∧
    ToSI.recipFvf usys x = x * (1 / (usys.reservoirVolume / usys.surfaceVolumeLiquid)) ∧
    ToSI.recipFvfDerivPress usys x =
      x * (1 / (usys.reservoirVolume / usys.surfaceVolumeLiquid * usys.pressure)) ∧
    ToSI.recipFvfDerivVapOil usys x =
      x * (1 / (usys.reservoirVolume / usys.surfaceVolumeLiquid *
        (usys.surfaceVolumeLiquid / usys.surfaceVolumeGas))) ∧
    ToSI.recipFvfVisc usys x =
      x * (1 / (usys.reservoirVolume / usys.surfaceVolumeLiquid * usys.viscosity)) ∧
    ToSI.recipFvfViscDerivPress usys x =
      x * (1 / (usys.reservoirVolume / usys.surfaceVolumeLiquid * usys.viscosity *
        usys.pressure)) ∧
    ToSI.recipFvfViscDerivVapOil usys x =
      x * (1 / (usys.reservoirVolume / usys.surfaceVolumeLiquid * usys.viscosity *
        (usys.surfaceVolumeLiquid / usys.surfaceVolumeGas))) :=
  ⟨rfl, rfl, rfl, rfl, rfl, rfl, rfl, rfl, rfl, rfl, rfl⟩

/-- The sample unit system has non-zero base scales, and there
`recipFvfViscDerivPress` multiplies by `1 / (3/7 * 1/1000 * 100000)`. -/
theorem toSI_liquid_scale_witness :
    sampleUnits.NonZero ∧
      ToSI.recipFvfViscDerivPress sampleUnits 2 = 2 * (1 / (3 / 7 * (1 / 1000) * 100000)) :=
  ⟨by simp [UnitSystem.NonZero, sampleUnits],
   (toSI_liquid_scale sampleUnits (by simp [UnitSystem.NonZero, sampleUnits]) 2).2.2.2.2.2.2.2.2.2.1⟩

/-- C2: for every unit system with non-zero base scales and every `x`, each
of the six gas-phase converters returns `x` times the scale of its
liquid-phase counterpart with `fvfGasScale = reservoirVolume /
surfaceVolumeGas` in the place of `fvfScale`: for each pair there is one
scale formula in `B`, into which the liquid converter puts `fvfScale` and the
gas converter puts `fvfGasScale`; pressure, viscosity and `rvScale` are the
same in both. -/
theorem toSI_gas_mirror (usys : UnitSystem) (_h : usys.NonZero) (x : ℚ) :
    fvfGasScale usys = usys.reservoirVolume / usys.surfaceVolumeGas ∧
    (ToSI.recipFvf usys x = x * (fun B : ℚ => 1 / B) (fvfScale usys) ∧
      ToSI.recipFvfGas usys x = x * (fun B : ℚ => 1 / B) (fvfGasScale usys)) ∧
    (ToSI.recipFvfDerivPress usys x =
        x * (fun B : ℚ => 1 / (B * usys.pressure)) (fvfScale usys) ∧
      ToSI.recipFvfGasDerivPress usys x =
        x * (fun B : ℚ => 1 / (B * usys.pressure)) (fvfGasScale usys)) ∧
    (ToSI.recipFvfDerivVapOil usys x =
        x * (fun B : ℚ => 1 / (B * rvScale usys)) (fvfScale usys) ∧
      ToSI.recipFvfGasDerivVapOil usys x =
        x * (fun B : ℚ => 1 / (B * rvScale usys)) (fvfGasScale usys)) ∧
    (ToSI.recipFvfVisc usys x =
        x * (fun B : ℚ => 1 / (B * usys.viscosity)) (fvfScale usys) ∧
      ToSI.recipFvfGasVisc usys x =
        x * (fun B : ℚ => 1 / (B * usys.viscosity)) (fvfGasScale usys)) ∧
    (ToSI.recipFvfViscDerivPress usys x =
        x * (fun B : ℚ => 1 / (B * usys.viscosity * usys.pressure)) (fvfScale usys) ∧
      ToSI.recipFvfGasViscDerivPress usys x =
        x * (fun B : ℚ => 1 / (B * usys.viscosity * usys.pressure)) (fvfGasScale usys)) ∧
    (ToSI.recipFvfViscDerivVapOil usys x =
        x * (fun B : ℚ => 1 / (B * usys.viscosity * rvScale usys)) (fvfScale usys) ∧
      ToSI.recipFvfGasViscDerivVapOil usys x =
        x * (fun B : ℚ => 1 / (B * usys.viscosity * rvScale usys)) (fvfGasScale usys)) :=
  ⟨rfl, ⟨rfl, rfl⟩, ⟨rfl, rfl⟩, ⟨rfl, rfl⟩, ⟨rfl, rfl⟩, ⟨rfl, rfl⟩, ⟨rfl, rfl⟩⟩

/-- In the sample unit system the gas-phase scale is `reservoirVolume /
surfaceVolumeGas = 3 / 5`. -/
theorem toSI_gas_mirror_witness :
    sampleUnits.NonZero ∧ fvfGasScale sampleUnits = 3 / 5 :=
  ⟨by simp [UnitSystem.NonZero, sampleUnits],
   (toSI_gas_mirror sampleUnits (by simp [UnitSystem.NonZero, sampleUnits]) 2).1⟩

/-- C3: every converter the factory produces, for any of the seventeen
operations and any unit system, is linear without offset over exact
arithmetic: it commutes with scaling, it is additive, and it maps zero to
zero. -/
theorem toSI_linear (conv : UnitSystem → Converter) (h : conv ∈ ToSI.all)
    (usys : UnitSystem) (a x x1 x2 : ℚ) :
    conv usys (a * x) = a * conv usys x ∧
    conv usys (x1 + x2) = conv usys x1 + conv usys x2 ∧
    conv usys 0 = 0 := by
  have key : ∃ scale : ℚ, ∀ q : ℚ, conv usys q = q * scale := by
    simp only [ToSI.all, List.mem_cons, List.mem_singleton, List.not_mem_nil, or_false] at h
    rcases h with h | h | h | h | h | h | h | h | h | h | h | h | h | h | h | h | h <;>
      subst h <;> exact ⟨_, fun _ => rfl⟩
  obtain ⟨scale, hs⟩ := key
  simp only [hs]
  refine ⟨by ring, by ring, by ring⟩

/-- The list `ToSI.all` has seventeen entries, `recipFvfGasViscDerivVapOil`
is one of them, and it is linear at concrete arguments. -/
theorem toSI_linear_witness :
    ToSI.all.length = 17 ∧ ToSI.recipFvfGasViscDerivVapOil ∈ ToSI.all ∧
      (ToSI.recipFvfGasViscDerivVapOil sampleUnits (3 * 2) =
          3 * ToSI.recipFvfGasViscDerivVapOil sampleUnits 2 ∧
        ToSI.recipFvfGasViscDerivVapOil sampleUnits (5 + 7) =
          ToSI.recipFvfGasViscDerivVapOil sampleUnits 5 +
            ToSI.recipFvfGasViscDerivVapOil sampleUnits 7 ∧
        ToSI.recipFvfGasViscDerivVapOil sampleUnits 0 = 0) :=
  ⟨rfl, by simp [ToSI.all],
   toSI_linear ToSI.recipFvfGasViscDerivVapOil (by simp [ToSI.all]) sampleUnits 3 2 5 7⟩

end ECLPVT

/-! ## Auxiliary facts -/

theorem except_ok_bind {ε α β : Type} (a : α) (f : α → Except ε β) :
    (Except.ok a >>= f) = f a := rfl

theorem except_error_bind {ε α β : Type} (e : ε) (f : α → Except ε β) :
    (Except.error e >>= f) = Except.error e := rfl

namespace ECLPVT

open ECLUnits CreateUnitConverter Interp1D

variable {EvalPt : Type}

/-- Without wrap-around the `std::size_t` index expression is the integer
expression `start + nreg*(col + k)`. -/
theorem densIndex_eq (start nreg : Int) (col k : Nat) (hck : col + k < 2 ^ 64)
    (h0 : 0 ≤ start + nreg * ((col + k : Nat) : Int))
    (h1 : start + nreg * ((col + k : Nat) : Int) < 2 ^ 64) :
    densIndex start nreg col k = (start + nreg * ((col + k : Nat) : Int)).toNat := by
  unfold densIndex toSizeT
  rw [Nat.mod_eq_of_lt hck]
  have hmod : (start % 2 ^ 64 + (nreg % 2 ^ 64 * ((col + k : Nat) : Int)) % 2 ^ 64) % 2 ^ 64
      = start + nreg * ((col + k : Nat) : Int) := by
    have h : (start % 2 ^ 64 + (nreg % 2 ^ 64 * ((col + k : Nat) : Int)) % 2 ^ 64)
        ≡ start + nreg * ((col + k : Nat) : Int) [ZMOD 2 ^ 64] :=
      Int.ModEq.add (Int.mod_modEq _ _)
        ((Int.mod_modEq _ _).trans ((Int.mod_modEq _ _).mul_right _))
    rw [h.eq, Int.emod_eq_of_lt h0 h1]
  apply Int.ofNat.inj
  simp only [Int.ofNat_eq_coe]
  rw [Int.toNat_of_nonneg h0, ← hmod]
  have e1 : ((start % 18446744073709551616).toNat : Int) = start % 18446744073709551616 :=
    Int.toNat_of_nonneg (by omega)
  have e2 : ((nreg % 18446744073709551616).toNat : Int) = nreg % 18446744073709551616 :=
    Int.toNat_of_nonneg (by omega)
  push_cast
  rw [e1, e2]

/-- The three recognised phases and their columns. -/
theorem phaseColumn_valid (phase : ECLPhaseIndex) (c : Nat)
    (h : (phase = ECLPhaseIndex.Liquid ∧ c = 0) ∨ (phase = ECLPhaseIndex.Aqua ∧ c = 1) ∨
      (phase = ECLPhaseIndex.Vapour ∧ c = 2)) :
    phaseColumn phase = .ok c ∧ c ≤ 2 := by
  rcases h with ⟨rfl, rfl⟩ | ⟨rfl, rfl⟩ | ⟨rfl, rfl⟩ <;>
    simp [phaseColumn, ECLPhaseIndex.Liquid, ECLPhaseIndex.Aqua, ECLPhaseIndex.Vapour]

/-- The value of `surfaceMassDensity` on an input whose reads are in bounds:
the scaled block of `nreg` entries that starts at `start + nreg*c`. -/
theorem surfaceMassDensity_eq (ext : Collaborators) (init : ECLInitFileData)
    (phase : ECLPhaseIndex) (c : Nat) (off nreg code : Int) (u : UnitSystem)
    (hphase : phaseColumn phase = .ok c) (hc : c ≤ 2)
    (hoff : (init.keywordDataInt "TABDIMS")[ext.TABDIMS_IBDENS_OFFSET_ITEM]? = some off)
    (hnreg : (init.keywordDataInt "TABDIMS")[ext.TABDIMS_NTDENS_ITEM]? = some nreg)
    (hfirst : 0 ≤ off - 1 + nreg * c) (hn0 : 0 ≤ nreg)
    (hlast : off - 1 + nreg * (c + 1) ≤ (init.keywordDataDouble "TAB").length)
    (hsize : (init.keywordDataDouble "TAB").length < 2 ^ 64)
    (hcode : (init.keywordDataInt ext.INTEHEAD_KW)[ext.INTEHEAD_UNIT_INDEX]? = some code)
    (hu : ext.createUnitSystem code = some u) :
    surfaceMassDensity ext init phase =
      .ok ((((init.keywordDataDouble "TAB").drop (off - 1 + nreg * c).toNat).take
        nreg.toNat).map (fun t => t * u.density)) := by
  have hmul : nreg * (c : Int) ≤ nreg * ((c : Int) + 1) := by nlinarith
  have hsz : ((init.keywordDataDouble "TAB").length : Int) < 2 ^ 64 := by exact_mod_cast hsize
  have i0 : densIndex (off - 1) nreg c 0 = (off - 1 + nreg * c).toNat := by
    rw [densIndex_eq _ _ _ _ (by omega) (by simpa using hfirst)
      (by simp only [Nat.add_zero]; linarith)]
    simp
  have i1 : densIndex (off - 1) nreg c 1 = (off - 1 + nreg * (c + 1)).toNat := by
    rw [densIndex_eq _ _ _ _ (by omega) (by push_cast; linarith) (by push_cast; linarith)]
    simp
  have hle : (off - 1 + nreg * c).toNat ≤ (off - 1 + nreg * (c + 1)).toNat :=
    Int.toNat_le_toNat (by linarith)
  have hle2 : (off - 1 + nreg * (c + 1)).toNat ≤ (init.keywordDataDouble "TAB").length := by
    have := Int.toNat_le_toNat hlast
    simpa using this
  have hsub : (off - 1 + nreg * (c + 1)).toNat - (off - 1 + nreg * c).toNat = nreg.toNat := by
    have h3 : off - 1 + nreg * (c + 1) = (off - 1 + nreg * c) + nreg := by ring
    rw [h3, Int.toNat_add hfirst hn0]
    omega
  simp [surfaceMassDensity, hphase, elementAt, hoff, hnreg, hcode, hu, except_ok_bind,
    pointerRange, i0, i1, hle, hle2, hsub, unit.convert.from, pure, Except.pure]

/-- The result of the density scenario. -/
theorem surfaceMassDensity_scenario :
    surfaceMassDensity sampleCollaborators scenarioInit ECLPhaseIndex.Liquid =
      .ok [850, 860] := by
  simp [surfaceMassDensity, sampleCollaborators, scenarioInit, phaseColumn, elementAt,
    pointerRange, densIndex, toSizeT, except_ok_bind, ECLPhaseIndex.Liquid,
    ECLPhaseIndex.Aqua, unit.convert.from, pure, Except.pure]

theorem foldl_push_eq_map {α β : Type} (f : α → β) (p : List α) (acc : List β) :
    p.foldl (fun result pi => result ++ [f pi]) acc = acc ++ p.map f := by
  induction p generalizing acc with
  | nil => simp
  | cons a p ih => simp [ih]

/-- The accumulation loop of `computeQuantity` is a map over the queries. -/
theorem PVDx.computeQuantity_eq_map (self : PVDx EvalPt) (p : List ℚ)
    (calculate : EvalPt → ℚ) :
    self.computeQuantity p calculate =
      p.map (fun pi => calculate (self.interp_.classifyPoint pi)) := by
  unfold PVDx.computeQuantity
  rw [foldl_push_eq_map (fun pi => calculate (self.interp_.classifyPoint pi))]
  simp

theorem PVDx.formationVolumeFactor_eq_map (self : PVDx EvalPt) (ps : List ℚ) :
    self.formationVolumeFactor ps =
      ps.map (fun p => 1 / self.interp_.evaluate 0 (self.interp_.classifyPoint p)) := by
  unfold PVDx.formationVolumeFactor
  rw [PVDx.computeQuantity_eq_map]
  rfl

theorem PVDx.viscosity_eq_map (self : PVDx EvalPt) (ps : List ℚ) :
    self.viscosity ps =
      ps.map (fun p => self.interp_.evaluate 0 (self.interp_.classifyPoint p) /
        self.interp_.evaluate 1 (self.interp_.classifyPoint p)) := by
  unfold PVDx.viscosity
  rw [PVDx.computeQuantity_eq_map]
  rfl

theorem foldl_set_length (b : List ℚ) (idx : List Nat) (y : List ℚ) :
    (idx.foldl (fun y i => y.set i (b.getD i 0 / y.getD i 0)) y).length = y.length := by
  induction idx generalizing y with
  | nil => rfl
  | cons a idx ih => rw [List.foldl_cons, ih]; simp

/-- Loop invariant of the viscosity post-processing: after `k` iterations the
entries below `k` are the quotients and the others are untouched. -/
theorem viscosityLoop_invariant (b y : List ℚ) (k j : Nat) :
    ((List.range k).foldl (fun y i => y.set i (b.getD i 0 / y.getD i 0)) y)[j]?
      = if j < k then (y[j]?).map (fun yj => b.getD j 0 / yj) else y[j]? := by
  induction k generalizing j with
  | zero => simp
  | succ k ih =>
    rw [List.range_succ, List.foldl_append]
    simp only [List.foldl_cons, List.foldl_nil]
    by_cases hkj : k = j
    · subst hkj
      have hk : ((List.range k).foldl
          (fun y i => y.set i (b.getD i 0 / y.getD i 0)) y)[k]? = y[k]? := by
        rw [ih k, if_neg (Nat.lt_irrefl k)]
      generalize (List.range k).foldl (fun y i => y.set i (b.getD i 0 / y.getD i 0)) y = L
        at hk
      rw [List.getElem?_set', if_pos rfl, List.getD_eq_getElem?_getD L k, hk,
        if_pos (Nat.lt_succ_self k)]
      cases y[k]? <;> simp
    · rw [List.getElem?_set_ne hkj, ih]
      have : j < k + 1 ↔ j < k := by omega
      simp [this]

theorem PVDx.viscosityLoop_length (b y : List ℚ) :
    (PVDx.viscosityLoop b y).length = y.length :=
  foldl_set_length b _ y

theorem PVDx.viscosityLoop_getElem? (b y : List ℚ) (i : Nat) (bi yi : ℚ)
    (hb : b[i]? = some bi) (hy : y[i]? = some yi) :
    (PVDx.viscosityLoop b y)[i]? = some (bi / yi) := by
  have hi : i < y.length := by
    rcases Nat.lt_or_ge i y.length with h | h
    · exact h
    · rw [List.getElem?_eq_none h] at hy; cases hy
  unfold PVDx.viscosityLoop
  rw [viscosityLoop_invariant, if_pos hi, hy]
  simp [hb]

/-- The table stored by the evaluator of the FVF scenario. -/
theorem scenarioPVDx_stored (prim : Primitive EvalPt) :
    (scenarioPVDx prim).interp_.x_ = [100, 200] ∧
      (scenarioPVDx prim).interp_.y_ = [[1, 4 / 5]] := by
  constructor
  · simp [scenarioPVDx, PVDx.construct, Linear.construct, ToSI.pressure,
      createConverterToSI, unit.convert.from, scenarioUnits]
  · simp [scenarioPVDx, PVDx.construct, Linear.construct, ToSI.recipFvf,
      createConverterToSI, unit.convert.from, scenarioUnits, fvfScale]

/-- Piecewise linear interpolation is exact at the nodes of the scenario. -/
theorem piecewiseLinear_exact_scenario :
    piecewiseLinear.ExactAtNodes (scenarioPVDx piecewiseLinear).interp_.x_
      (scenarioPVDx piecewiseLinear).interp_.y_ := by
  rw [(scenarioPVDx_stored piecewiseLinear).1, (scenarioPVDx_stored piecewiseLinear).2]
  intro col i ys xi yi hcol hx hy
  rcases col with _ | col
  · simp at hcol
    subst hcol
    rcases i with _ | _ | i
    · simp at hx hy; subst hx; subst hy
      simp [piecewiseLinear]
    · simp at hx hy; subst hx; subst hy
      simp [piecewiseLinear]
      norm_num
    · simp at hx
  · simp at hcol

/-- The sample evaluator at its first node: both interpolants return the
stored ordinates, `35/12` and `7000`. -/
theorem samplePVDx_first_node :
    samplePVDx.interp_.evaluate 0 (samplePVDx.interp_.classifyPoint 10000000) = 35 / 12 ∧
      samplePVDx.interp_.evaluate 1 (samplePVDx.interp_.classifyPoint 10000000) = 7000 := by
  constructor <;>
  · simp [samplePVDx, PVDx.construct, Linear.construct, piecewiseLinear, ToSI.pressure,
      ToSI.recipFvf, ToSI.recipFvfVisc, createConverterToSI, unit.convert.from, sampleUnits,
      fvfScale]
    norm_num

/-- The two raw curves of the sample evaluator. -/
theorem samplePVDx_getPvtCurve :
    samplePVDx.getPvtCurve RawCurve.FVF =
        .ok ([10000000, 20000000, 30000000], [12 / 35, 3 / 7, 6 / 7]) ∧
      samplePVDx.getPvtCurve RawCurve.Viscosity =
        .ok ([10000000, 20000000, 30000000], [1 / 2400, 1 / 2000, 1 / 2000]) := by
  constructor
  · simp [samplePVDx, PVDx.getPvtCurve, PVDx.construct, Linear.construct,
      Linear.resultVariable, Linear.independentVariable, ToSI.pressure, ToSI.recipFvf,
      ToSI.recipFvfVisc, createConverterToSI, unit.convert.from, sampleUnits, fvfScale,
      except_ok_bind, pure, Except.pure]
    norm_num
  · simp [samplePVDx, PVDx.getPvtCurve, PVDx.construct, Linear.construct,
      Linear.resultVariable, Linear.independentVariable, ToSI.pressure, ToSI.recipFvf,
      ToSI.recipFvfVisc, createConverterToSI, unit.convert.from, sampleUnits, fvfScale,
      except_ok_bind, pure, Except.pure, PVDx.viscosityLoop, List.range, List.range.loop]
    norm_num

/-! ## The surface density accessor -/

/-- C4: for every valid phase with column index `c` (Liquid/oil 0, Aqua/water
1, Vapour/gas 2) and every content of TABDIMS, TAB and INTEHEAD for which the
reads are in bounds, `surfaceMassDensity` returns exactly `regionCount`
entries, and its `i`-th entry is `TAB[start + regionCount*c + i]` times the
density scale of the unit system, where `start` is the TABDIMS density offset
minus one. -/
theorem surfaceMassDensity_entries (ext : Collaborators) (init : ECLInitFileData)
    (phase : ECLPhaseIndex) (c : Nat) (off nreg code : Int) (u : UnitSystem)
    (hphase : (phase = ECLPhaseIndex.Liquid ∧ c = 0) ∨ (phase = ECLPhaseIndex.Aqua ∧ c = 1) ∨
      (phase = ECLPhaseIndex.Vapour ∧ c = 2))
    (hoff : (init.keywordDataInt "TABDIMS")[ext.TABDIMS_IBDENS_OFFSET_ITEM]? = some off)
    (hnreg : (init.keywordDataInt "TABDIMS")[ext.TABDIMS_NTDENS_ITEM]? = some nreg)
    (hfirst : 0 ≤ off - 1 + nreg * c) (hn0 : 0 ≤ nreg)
    (hlast : off - 1 + nreg * (c + 1) ≤ (init.keywordDataDouble "TAB").length)
    (hsize : (init.keywordDataDouble "TAB").length < 2 ^ 64)
    (hcode : (init.keywordDataInt ext.INTEHEAD_KW)[ext.INTEHEAD_UNIT_INDEX]? = some code)
    (hu : ext.createUnitSystem code = some u) :
    ∃ rho : List ℚ, surfaceMassDensity ext init phase = .ok rho ∧
      rho.length = nreg.toNat ∧
      ∀ i : Nat, i < nreg.toNat →
        ∃ t : ℚ, (init.keywordDataDouble "TAB")[(off - 1 + nreg * c).toNat + i]? = some t ∧
          rho[i]? = some (t * u.density) := by
  obtain ⟨hcol, hc⟩ := phaseColumn_valid phase c hphase
  refine ⟨_, surfaceMassDensity_eq ext init phase c off nreg code u hcol hc hoff hnreg hfirst
    hn0 hlast hsize hcode hu, ?_, ?_⟩
  · have h3 : off - 1 + nreg * (c + 1) = (off - 1 + nreg * c) + nreg := by ring
    have h4 := Int.toNat_le_toNat hlast
    rw [h3, Int.toNat_add hfirst hn0] at h4
    simp only [Int.toNat_ofNat] at h4
    simp only [List.length_map, List.length_take, List.length_drop]
    omega
  · intro i hi
    have h3 : off - 1 + nreg * (c + 1) = (off - 1 + nreg * c) + nreg := by ring
    have h4 := Int.toNat_le_toNat hlast
    rw [h3, Int.toNat_add hfirst hn0] at h4
    simp only [Int.toNat_ofNat] at h4
    have hlt : (off - 1 + nreg * c).toNat + i < (init.keywordDataDouble "TAB").length := by
      omega
    refine ⟨(init.keywordDataDouble "TAB")[(off - 1 + nreg * c).toNat + i], ?_, ?_⟩
    · exact List.getElem?_eq_getElem hlt
    · simp [List.getElem?_map, List.getElem?_take, hi, List.getElem?_drop,
        List.getElem?_eq_getElem hlt]

/-- The density scenario: start offset 5 (1-based), region count 2,
`TAB[4..5] = [850, 860]`, density scale 1 and phase Liquid satisfy the
hypotheses, and the result is `[850, 860]`. -/
theorem surfaceMassDensity_entries_witness :
    surfaceMassDensity sampleCollaborators scenarioInit ECLPhaseIndex.Liquid = .ok [850, 860] ∧
    ∃ rho : List ℚ,
      surfaceMassDensity sampleCollaborators scenarioInit ECLPhaseIndex.Liquid = .ok rho ∧
      rho.length = (2 : Int).toNat ∧
      ∀ i : Nat, i < (2 : Int).toNat →
        ∃ t : ℚ, (scenarioInit.keywordDataDouble "TAB")[
            ((5 : Int) - 1 + 2 * ((0 : Nat) : Int)).toNat + i]? = some t ∧
          rho[i]? = some (t * (UnitSystem.mk 1 1 1 1 1 1).density) :=
  ⟨surfaceMassDensity_scenario,
   surfaceMassDensity_entries sampleCollaborators scenarioInit ECLPhaseIndex.Liquid 0 5 2 1
    (UnitSystem.mk 1 1 1 1 1 1) (Or.inl ⟨rfl, rfl⟩)
    (by simp [scenarioInit, sampleCollaborators])
    (by simp [scenarioInit, sampleCollaborators])
    (by norm_num) (by norm_num)
    (by simp [scenarioInit])
    (by simp [scenarioInit])
    (by simp [scenarioInit, sampleCollaborators])
    (by simp [sampleCollaborators])⟩

/-- C5 (as the code has it): for every valid phase with column index `c` and
every in-bounds input, `surfaceMassDensity` extracts `regionCount`
consecutive entries of TAB beginning at index `start + regionCount * c`: the
returned sequence is that block, each entry scaled by the density scale, it
has length `regionCount`, and it ends where the block of the following phase
begins. -/
theorem surfaceMassDensity_slice (ext : Collaborators) (init : ECLInitFileData)
    (phase : ECLPhaseIndex) (c : Nat) (off nreg code : Int) (u : UnitSystem)
    (hphase : (phase = ECLPhaseIndex.Liquid ∧ c = 0) ∨ (phase = ECLPhaseIndex.Aqua ∧ c = 1) ∨
      (phase = ECLPhaseIndex.Vapour ∧ c = 2))
    (hoff : (init.keywordDataInt "TABDIMS")[ext.TABDIMS_IBDENS_OFFSET_ITEM]? = some off)
    (hnreg : (init.keywordDataInt "TABDIMS")[ext.TABDIMS_NTDENS_ITEM]? = some nreg)
    (hfirst : 0 ≤ off - 1 + nreg * c) (hn0 : 0 ≤ nreg)
    (hlast : off - 1 + nreg * (c + 1) ≤ (init.keywordDataDouble "TAB").length)
    (hsize : (init.keywordDataDouble "TAB").length < 2 ^ 64)
    (hcode : (init.keywordDataInt ext.INTEHEAD_KW)[ext.INTEHEAD_UNIT_INDEX]? = some code)
    (hu : ext.createUnitSystem code = some u) :
    surfaceMassDensity ext init phase =
        .ok ((((init.keywordDataDouble "TAB").drop (off - 1 + nreg * c).toNat).take
          nreg.toNat).map (fun t => t * u.density)) ∧
      ((((init.keywordDataDouble "TAB").drop (off - 1 + nreg * c).toNat).take
          nreg.toNat).map (fun t => t * u.density)).length = nreg.toNat ∧
      (off - 1 + nreg * c).toNat + nreg.toNat = (off - 1 + nreg * (c + 1)).toNat := by
  obtain ⟨hcol, hc⟩ := phaseColumn_valid phase c hphase
  have h3 : off - 1 + nreg * (c + 1) = (off - 1 + nreg * c) + nreg := by ring
  have h4 := Int.toNat_le_toNat hlast
  rw [h3, Int.toNat_add hfirst hn0] at h4
  simp only [Int.toNat_ofNat] at h4
  refine ⟨surfaceMassDensity_eq ext init phase c off nreg code u hcol hc hoff hnreg hfirst
    hn0 hlast hsize hcode hu, ?_, ?_⟩
  · simp only [List.length_map, List.length_take, List.length_drop]
    omega
  · rw [h3, Int.toNat_add hfirst hn0]

/-- The density scenario satisfies the hypotheses: the slice for Liquid is
the block of two entries that starts at index 4. -/
theorem surfaceMassDensity_slice_witness :
    surfaceMassDensity sampleCollaborators scenarioInit ECLPhaseIndex.Liquid =
        .ok ((((scenarioInit.keywordDataDouble "TAB").drop
          ((5 : Int) - 1 + 2 * ((0 : Nat) : Int)).toNat).take (2 : Int).toNat).map
            (fun t => t * (UnitSystem.mk 1 1 1 1 1 1).density)) ∧
      ((((scenarioInit.keywordDataDouble "TAB").drop
          ((5 : Int) - 1 + 2 * ((0 : Nat) : Int)).toNat).take (2 : Int).toNat).map
            (fun t => t * (UnitSystem.mk 1 1 1 1 1 1).density)).length = (2 : Int).toNat ∧
      ((5 : Int) - 1 + 2 * ((0 : Nat) : Int)).toNat + (2 : Int).toNat =
        ((5 : Int) - 1 + 2 * (((0 : Nat) : Int) + 1)).toNat :=
  surfaceMassDensity_slice sampleCollaborators scenarioInit ECLPhaseIndex.Liquid 0 5 2 1
    (UnitSystem.mk 1 1 1 1 1 1) (Or.inl ⟨rfl, rfl⟩)
    (by simp [scenarioInit, sampleCollaborators])
    (by simp [scenarioInit, sampleCollaborators])
    (by norm_num) (by norm_num)
    (by simp [scenarioInit])
    (by simp [scenarioInit])
    (by simp [scenarioInit, sampleCollaborators])
    (by simp [sampleCollaborators])

/-- C5 as stated fails: in the density scenario every index of a slice of
`2 * regionCount = 4` entries from index 4 is inside TAB (which has ten
entries), yet for Liquid the code returns the two entries `[850, 860]`, not
the four entries `[850, 860, 1000, 1010]` of the oil block and the water
block. -/
theorem surfaceMassDensity_slice_counterexample :
    4 + 2 * 2 ≤ (scenarioInit.keywordDataDouble "TAB").length ∧
    ((scenarioInit.keywordDataDouble "TAB").drop 4).take (2 * 2) = [850, 860, 1000, 1010] ∧
    surfaceMassDensity sampleCollaborators scenarioInit ECLPhaseIndex.Liquid =
      .ok [850, 860] ∧
    surfaceMassDensity sampleCollaborators scenarioInit ECLPhaseIndex.Liquid ≠
      .ok ((((scenarioInit.keywordDataDouble "TAB").drop 4).take (2 * 2)).map
        (fun t => t * 1)) ∧
    Except.map List.length
        (surfaceMassDensity sampleCollaborators scenarioInit ECLPhaseIndex.Liquid) ≠
      .ok (2 * 2) := by
  rw [surfaceMassDensity_scenario]
  refine ⟨by simp [scenarioInit], by simp [scenarioInit], rfl, ?_, ?_⟩
  · simp [scenarioInit]
  · simp [Except.map]

/-- C6: for every phase value outside `Aqua`, `Liquid`, `Vapour` the accessor
fails with the invalid-argument error whatever TABDIMS, TAB and INTEHEAD hold
(missing, empty and undersized arrays included), so no keyword array decides
the outcome; and for each of the three recognised phases the invalid-argument
error is never raised. -/
theorem surfaceMassDensity_invalid_phase (ext : Collaborators) (init : ECLInitFileData)
    (phase : ECLPhaseIndex) :
    (phase ≠ ECLPhaseIndex.Aqua → phase ≠ ECLPhaseIndex.Liquid →
      phase ≠ ECLPhaseIndex.Vapour →
      surfaceMassDensity ext init phase =
        .error (Failure.invalid_argument "Unsupported Phase ID")) ∧
    (phase = ECLPhaseIndex.Aqua ∨ phase = ECLPhaseIndex.Liquid ∨
        phase = ECLPhaseIndex.Vapour →
      ∀ what : String,
        surfaceMassDensity ext init phase ≠ .error (Failure.invalid_argument what)) := by
  constructor
  · intro h1 h2 h3
    simp [surfaceMassDensity, phaseColumn, h1, h2, h3, except_error_bind]
  · intro h what
    have hcol : ∃ c, phaseColumn phase = .ok c := by
      rcases h with rfl | rfl | rfl <;>
        simp [phaseColumn, ECLPhaseIndex.Liquid, ECLPhaseIndex.Aqua, ECLPhaseIndex.Vapour]
    obtain ⟨c, hc⟩ := hcol
    simp only [surfaceMassDensity, hc, except_ok_bind, elementAt, pointerRange]
    cases (init.keywordDataInt "TABDIMS")[ext.TABDIMS_IBDENS_OFFSET_ITEM]? with
    | none => simp [except_error_bind]
    | some off =>
      cases (init.keywordDataInt "TABDIMS")[ext.TABDIMS_NTDENS_ITEM]? with
      | none => simp [except_error_bind, except_ok_bind]
      | some nreg =>
        simp only [except_ok_bind]
        split
        · simp only [except_ok_bind]
          cases (init.keywordDataInt ext.INTEHEAD_KW)[ext.INTEHEAD_UNIT_INDEX]? with
          | none => simp [except_error_bind]
          | some code =>
            simp only [except_ok_bind]
            cases ext.createUnitSystem code with
            | none => simp [throw, throwThe, MonadExceptOf.throw]
            | some u => simp [pure, Except.pure, except_ok_bind]
        · simp [except_error_bind]

/-- The phase value 7 is outside the enumeration and fails with the
invalid-argument error on a file without any keyword; the phase Liquid is
inside and does not raise it on the same file. -/
theorem surfaceMassDensity_invalid_phase_witness :
    surfaceMassDensity sampleCollaborators ⟨fun _ => [], fun _ => []⟩ ⟨7⟩ =
        .error (Failure.invalid_argument "Unsupported Phase ID") ∧
      surfaceMassDensity sampleCollaborators ⟨fun _ => [], fun _ => []⟩ ECLPhaseIndex.Liquid ≠
        .error (Failure.invalid_argument "Unsupported Phase ID") :=
  ⟨(surfaceMassDensity_invalid_phase sampleCollaborators ⟨fun _ => [], fun _ => []⟩ ⟨7⟩).1
      (by decide) (by decide) (by decide),
   (surfaceMassDensity_invalid_phase sampleCollaborators ⟨fun _ => [], fun _ => []⟩
      ECLPhaseIndex.Liquid).2 (Or.inr (Or.inl rfl)) "Unsupported Phase ID"⟩

/-! ## The curve evaluator -/

/-- C7: for every stored table whose columns have the same length `n` as the
independent variable, `getPvtCurve` returns a pair `(xs, ys)` in which `xs`
is the stored independent variable unchanged and `|xs| = |ys| = n`; for FVF
`ys[i] = 1 / col0[i]` and for Viscosity `ys[i] = col0[i] / col1[i]` at every
row `i`, where `col0` is the stored reciprocal FVF and `col1` the stored
reciprocal FVF*viscosity.  The method is a function of the evaluator and
returns nothing but the pair, so the stored table is left as it was. -/
theorem getPvtCurve_spec (self : PVDx EvalPt) (col0 : List ℚ)
    (h0 : self.interp_.y_[0]? = some col0)
    (hl0 : col0.length = self.interp_.x_.length) :
    (∃ ys : List ℚ, self.getPvtCurve RawCurve.FVF = .ok (self.interp_.x_, ys) ∧
      ys.length = self.interp_.x_.length ∧
      ∀ (i : Nat) (bi : ℚ), col0[i]? = some bi → ys[i]? = some (1 / bi)) ∧
    (∀ col1 : List ℚ, self.interp_.y_[1]? = some col1 →
      col1.length = self.interp_.x_.length →
      ∃ ys : List ℚ, self.getPvtCurve RawCurve.Viscosity = .ok (self.interp_.x_, ys) ∧
        ys.length = self.interp_.x_.length ∧
        ∀ (i : Nat) (bi mi : ℚ), col0[i]? = some bi → col1[i]? = some mi →
          ys[i]? = some (bi / mi)) := by
  constructor
  · refine ⟨col0.map (fun yi => 1 / yi), ?_, by simpa using hl0, ?_⟩
    · simp [PVDx.getPvtCurve, Linear.resultVariable, Linear.independentVariable,
        h0, hl0, except_ok_bind, pure, Except.pure]
    · intro i bi hbi
      simp [List.getElem?_map, hbi]
  · intro col1 h1 hl1
    refine ⟨PVDx.viscosityLoop col0 col1, ?_, ?_, ?_⟩
    · simp [PVDx.getPvtCurve, Linear.resultVariable, Linear.independentVariable,
        h0, h1, hl0, hl1, except_ok_bind, pure, Except.pure]
    · rw [PVDx.viscosityLoop_length, hl1]
    · intro i bi mi hbi hmi
      exact PVDx.viscosityLoop_getElem? col0 col1 i bi mi hbi hmi

/-- The sample evaluator has three rows and two columns of three entries;
both curves are returned over its stored abscissae. -/
theorem getPvtCurve_spec_witness :
    (samplePVDx.getPvtCurve RawCurve.FVF =
        .ok ([10000000, 20000000, 30000000], [12 / 35, 3 / 7, 6 / 7]) ∧
      samplePVDx.getPvtCurve RawCurve.Viscosity =
        .ok ([10000000, 20000000, 30000000], [1 / 2400, 1 / 2000, 1 / 2000])) ∧
    (∃ ys : List ℚ, samplePVDx.getPvtCurve RawCurve.FVF = .ok (samplePVDx.interp_.x_, ys) ∧
      ys.length = samplePVDx.interp_.x_.length ∧
      ∀ (i : Nat) (bi : ℚ), (samplePVDx.interp_.y_.getD 0 [])[i]? = some bi →
        ys[i]? = some (1 / bi)) ∧
    (∃ ys : List ℚ,
      samplePVDx.getPvtCurve RawCurve.Viscosity = .ok (samplePVDx.interp_.x_, ys) ∧
        ys.length = samplePVDx.interp_.x_.length ∧
        ∀ (i : Nat) (bi mi : ℚ), (samplePVDx.interp_.y_.getD 0 [])[i]? = some bi →
          (samplePVDx.interp_.y_.getD 1 [])[i]? = some mi → ys[i]? = some (bi / mi)) :=
  ⟨samplePVDx_getPvtCurve,
   (getPvtCurve_spec samplePVDx (samplePVDx.interp_.y_.getD 0 []) rfl rfl).1,
   (getPvtCurve_spec samplePVDx (samplePVDx.interp_.y_.getD 0 []) rfl rfl).2
     (samplePVDx.interp_.y_.getD 1 []) rfl rfl⟩

/-- C8 (over exact arithmetic): for every sequence of query pressures `ps`,
`formationVolumeFactor ps` has the length of `ps` and its `i`-th entry is
`1 / r(ps[i])`, where `r` is the interpolated reciprocal FVF (column 0) of the
evaluator; so, over exact arithmetic, wherever `r(ps[i])` is not zero, the
`i`-th entry times `r(ps[i])` is one. -/
theorem formationVolumeFactor_spec (self : PVDx EvalPt) (ps : List ℚ) :
    (self.formationVolumeFactor ps).length = ps.length ∧
    ∀ (i : Nat) (p : ℚ), ps[i]? = some p →
      (self.formationVolumeFactor ps)[i]? =
          some (1 / self.interp_.evaluate 0 (self.interp_.classifyPoint p)) ∧
        (self.interp_.evaluate 0 (self.interp_.classifyPoint p) ≠ 0 →
          ∃ B : ℚ, (self.formationVolumeFactor ps)[i]? = some B ∧
            B * self.interp_.evaluate 0 (self.interp_.classifyPoint p) = 1) := by
  have hmap := PVDx.formationVolumeFactor_eq_map self ps
  refine ⟨by rw [hmap, List.length_map], ?_⟩
  intro i p hp
  have hi : (self.formationVolumeFactor ps)[i]? =
      some (1 / self.interp_.evaluate 0 (self.interp_.classifyPoint p)) := by
    rw [hmap, List.getElem?_map, hp]; rfl
  refine ⟨hi, fun hr => ⟨_, hi, ?_⟩⟩
  field_simp

/-- At the first node of the sample evaluator the reciprocal FVF is `35/12`,
not zero, and the formation volume factor returned there is its inverse. -/
theorem formationVolumeFactor_spec_witness :
    (samplePVDx.formationVolumeFactor [10000000, 25000000]).length = 2 ∧
    (samplePVDx.formationVolumeFactor [10000000, 25000000])[0]? =
      some (1 / samplePVDx.interp_.evaluate 0 (samplePVDx.interp_.classifyPoint 10000000)) ∧
    samplePVDx.interp_.evaluate 0 (samplePVDx.interp_.classifyPoint 10000000) ≠ 0 ∧
    ∃ B : ℚ, (samplePVDx.formationVolumeFactor [10000000, 25000000])[0]? = some B ∧
      B * samplePVDx.interp_.evaluate 0 (samplePVDx.interp_.classifyPoint 10000000) = 1 :=
  ⟨(formationVolumeFactor_spec samplePVDx [10000000, 25000000]).1,
   ((formationVolumeFactor_spec samplePVDx [10000000, 25000000]).2 0 10000000 rfl).1,
   by rw [samplePVDx_first_node.1]; norm_num,
   ((formationVolumeFactor_spec samplePVDx [10000000, 25000000]).2 0 10000000 rfl).2
     (by rw [samplePVDx_first_node.1]; norm_num)⟩

/-- C9 (over exact arithmetic): for every sequence of query pressures `ps`,
`viscosity ps` has the length of `ps` and its `i`-th entry is
`r(ps[i]) / m(ps[i])`, where `r` is the interpolated reciprocal FVF (column 0)
and `m` the interpolated reciprocal FVF*viscosity (column 1), both at the same
classified point; so, over exact arithmetic, where `r` and `m` are not zero,
the entry is the inverse of the `i`-th formation volume factor divided by
`m(ps[i])`. -/
theorem viscosity_spec (self : PVDx EvalPt) (ps : List ℚ) :
    (self.viscosity ps).length = ps.length ∧
    ∀ (i : Nat) (p : ℚ), ps[i]? = some p →
      (self.viscosity ps)[i]? =
          some (self.interp_.evaluate 0 (self.interp_.classifyPoint p) /
            self.interp_.evaluate 1 (self.interp_.classifyPoint p)) ∧
        (self.interp_.evaluate 0 (self.interp_.classifyPoint p) ≠ 0 →
          self.interp_.evaluate 1 (self.interp_.classifyPoint p) ≠ 0 →
          ∃ B mu : ℚ, (self.formationVolumeFactor ps)[i]? = some B ∧
            (self.viscosity ps)[i]? = some mu ∧
            mu = B⁻¹ / self.interp_.evaluate 1 (self.interp_.classifyPoint p)) := by
  have hmap := PVDx.viscosity_eq_map self ps
  have hfvf := PVDx.formationVolumeFactor_eq_map self ps
  refine ⟨by rw [hmap, List.length_map], ?_⟩
  intro i p hp
  have hi : (self.viscosity ps)[i]? =
      some (self.interp_.evaluate 0 (self.interp_.classifyPoint p) /
        self.interp_.evaluate 1 (self.interp_.classifyPoint p)) := by
    rw [hmap, List.getElem?_map, hp]; rfl
  refine ⟨hi, fun _ _ =>
    ⟨1 / self.interp_.evaluate 0 (self.interp_.classifyPoint p), _, ?_, hi, ?_⟩⟩
  · rw [hfvf, List.getElem?_map, hp]; rfl
  · simp

/-- At the first node of the sample evaluator `r = 35/12` and `m = 7000` are
not zero, and the viscosity returned there is `r / m`. -/
theorem viscosity_spec_witness :
    (samplePVDx.viscosity [10000000, 25000000]).length = 2 ∧
    (samplePVDx.viscosity [10000000, 25000000])[0]? =
      some (samplePVDx.interp_.evaluate 0 (samplePVDx.interp_.classifyPoint 10000000) /
        samplePVDx.interp_.evaluate 1 (samplePVDx.interp_.classifyPoint 10000000)) ∧
    samplePVDx.interp_.evaluate 0 (samplePVDx.interp_.classifyPoint 10000000) ≠ 0 ∧
    samplePVDx.interp_.evaluate 1 (samplePVDx.interp_.classifyPoint 10000000) ≠ 0 ∧
    ∃ B mu : ℚ, (samplePVDx.formationVolumeFactor [10000000, 25000000])[0]? = some B ∧
      (samplePVDx.viscosity [10000000, 25000000])[0]? = some mu ∧
      mu = B⁻¹ / samplePVDx.interp_.evaluate 1 (samplePVDx.interp_.classifyPoint 10000000) :=
  ⟨(viscosity_spec samplePVDx [10000000, 25000000]).1,
   ((viscosity_spec samplePVDx [10000000, 25000000]).2 0 10000000 rfl).1,
   by rw [samplePVDx_first_node.1]; norm_num,
   by rw [samplePVDx_first_node.2]; norm_num,
   ((viscosity_spec samplePVDx [10000000, 25000000]).2 0 10000000 rfl).2
     (by rw [samplePVDx_first_node.1]; norm_num)
     (by rw [samplePVDx_first_node.2]; norm_num)⟩

/-- C10 (as the code has it): with `reservoirVolume = 1.0`,
`surfaceVolumeLiquid = 0.8` and pressure scale 1, the table with
reciprocal-FVF column `[1.25, 1.0]` at the native pressures `[100, 200]`,
converted with the `recipFvf` converter, and an interpolation primitive that
is exact at the table nodes, `formationVolumeFactor [100, 200]` is
`[1.0, 1.25]`: the converter multiplies the stored reciprocals by
`1 / fvfScale = 0.8`, which gives `[1.0, 0.8]`, and their inverses are
returned. -/
theorem scenario_formationVolumeFactor (prim : Primitive EvalPt)
    (hexact : prim.ExactAtNodes (scenarioPVDx prim).interp_.x_
      (scenarioPVDx prim).interp_.y_) :
    (scenarioPVDx prim).formationVolumeFactor [100, 200] = [1, 5 / 4] := by
  have hx := (scenarioPVDx_stored prim).1
  have hy := (scenarioPVDx_stored prim).2
  have e0 := hexact 0 0 [1, 4 / 5] 100 1 (by rw [hy]; rfl) (by rw [hx]; rfl) rfl
  have e1 := hexact 0 1 [1, 4 / 5] 200 (4 / 5) (by rw [hy]; rfl) (by rw [hx]; rfl) rfl
  have c0 : (scenarioPVDx prim).interp_.evaluate 0
      ((scenarioPVDx prim).interp_.classifyPoint 100) = 1 := e0
  have c1 : (scenarioPVDx prim).interp_.evaluate 0
      ((scenarioPVDx prim).interp_.classifyPoint 200) = 4 / 5 := e1
  rw [PVDx.formationVolumeFactor_eq_map]
  simp only [List.map, c0, c1]
  norm_num

/-- Piecewise linear interpolation is exact at the nodes of the scenario
table and yields `[1, 5/4]`. -/
theorem scenario_formationVolumeFactor_witness :
    piecewiseLinear.ExactAtNodes (scenarioPVDx piecewiseLinear).interp_.x_
        (scenarioPVDx piecewiseLinear).interp_.y_ ∧
      (scenarioPVDx piecewiseLinear).formationVolumeFactor [100, 200] = [1, 5 / 4] :=
  ⟨piecewiseLinear_exact_scenario,
   scenario_formationVolumeFactor piecewiseLinear piecewiseLinear_exact_scenario⟩

/-- C10 as stated fails: piecewise linear interpolation is exact at the nodes
of the scenario table, and over it `formationVolumeFactor [100, 200]` is
`[1, 5/4]`, which is not `[0.8, 1.0]`. -/
theorem scenario_formationVolumeFactor_counterexample :
    piecewiseLinear.ExactAtNodes (scenarioPVDx piecewiseLinear).interp_.x_
        (scenarioPVDx piecewiseLinear).interp_.y_ ∧
      (scenarioPVDx piecewiseLinear).formationVolumeFactor [100, 200] ≠ [4 / 5, 1] := by
  refine ⟨piecewiseLinear_exact_scenario, ?_⟩
  have hx := (scenarioPVDx_stored piecewiseLinear).1
  have hy := (scenarioPVDx_stored piecewiseLinear).2
  have e0 := piecewiseLinear_exact_scenario 0 0 [1, 4 / 5] 100 1
    (by rw [hy]; rfl) (by rw [hx]; rfl) rfl
  have c0 : (scenarioPVDx piecewiseLinear).interp_.evaluate 0
      ((scenarioPVDx piecewiseLinear).interp_.classifyPoint 100) = 1 := e0
  rw [PVDx.formationVolumeFactor_eq_map]
  simp only [List.map, c0]
  norm_num

/-! ## Further auxiliary facts -/

/-- The raw FVF curve: the stored abscissae and the inverted first column. -/
theorem PVDx.getPvtCurve_FVF_eq (self : PVDx EvalPt) (col0 : List ℚ)
    (h0 : self.interp_.y_[0]? = some col0) (hl0 : col0.length = self.interp_.x_.length) :
    self.getPvtCurve RawCurve.FVF = .ok (self.interp_.x_, col0.map (fun yi => 1 / yi)) := by
  simp [PVDx.getPvtCurve, Linear.resultVariable, Linear.independentVariable,
    h0, hl0, except_ok_bind, pure, Except.pure]

/-- The raw viscosity curve: the stored abscissae and the post-processed
second column. -/
theorem PVDx.getPvtCurve_Viscosity_eq (self : PVDx EvalPt) (col0 col1 : List ℚ)
    (h0 : self.interp_.y_[0]? = some col0) (h1 : self.interp_.y_[1]? = some col1)
    (hl0 : col0.length = self.interp_.x_.length)
    (hl1 : col1.length = self.interp_.x_.length) :
    self.getPvtCurve RawCurve.Viscosity =
      .ok (self.interp_.x_, PVDx.viscosityLoop col0 col1) := by
  simp [PVDx.getPvtCurve, Linear.resultVariable, Linear.independentVariable,
    h0, h1, hl0, hl1, except_ok_bind, pure, Except.pure]

/-- Piecewise linear interpolation is exact at the nodes of the sample
evaluator. -/
theorem piecewiseLinear_exact_sample :
    piecewiseLinear.ExactAtNodes samplePVDx.interp_.x_ samplePVDx.interp_.y_ := by
  have hx : samplePVDx.interp_.x_ = [10000000, 20000000, 30000000] := by
    simp [samplePVDx, PVDx.construct, Linear.construct, ToSI.pressure,
      createConverterToSI, unit.convert.from, sampleUnits]
    norm_num
  have hy : samplePVDx.interp_.y_ = [[35 / 12, 7 / 3, 7 / 6], [7000, 14000 / 3, 7000 / 3]] := by
    simp [samplePVDx, PVDx.construct, Linear.construct, ToSI.recipFvf, ToSI.recipFvfVisc,
      createConverterToSI, unit.convert.from, sampleUnits, fvfScale]
    norm_num
  rw [hx, hy]
  intro col i ys xi yi hcol hxi hyi
  rcases col with _ | _ | col
  · simp at hcol
    subst hcol
    rcases i with _ | _ | _ | i
    · simp at hxi hyi; subst hxi; subst hyi
      norm_num [piecewiseLinear, List.filter]
    · simp at hxi hyi; subst hxi; subst hyi
      norm_num [piecewiseLinear, List.filter]
    · simp at hxi hyi; subst hxi; subst hyi
      norm_num [piecewiseLinear, List.filter]
    · simp at hxi
  · simp at hcol
    subst hcol
    rcases i with _ | _ | _ | i
    · simp at hxi hyi; subst hxi; subst hyi
      norm_num [piecewiseLinear, List.filter]
    · simp at hxi hyi; subst hxi; subst hyi
      norm_num [piecewiseLinear, List.filter]
    · simp at hxi hyi; subst hxi; subst hyi
      norm_num [piecewiseLinear, List.filter]
    · simp at hxi
  · simp at hcol

/-! ## Round trip at the table nodes -/

/-- C11: for every unit system with non-zero scales and every table with
strictly ascending pressures that is built with the `pressure` and `recipFvf`
converters (further columns, if any, with converters of their own), over an
interpolation primitive that reproduces the stored values at the table
nodes: for every row `i`, `formationVolumeFactor` at the tabulated SI
pressure `x_i` (wherever it stands among the query pressures) is
`1 / recipFvf (native_recipFvf_i)`, and this is the `i`-th ordinate of
`getPvtCurve FVF`, whose `i`-th abscissa is `x_i`. -/
theorem formationVolumeFactor_round_trip (prim : Primitive EvalPt) (usys : UnitSystem)
    (_hU : usys.NonZero) (x col : List ℚ) (otherCols : List (List ℚ))
    (otherConv : List Converter) (self : PVDx EvalPt)
    (hself : self = PVDx.construct prim x
      { indep := ToSI.pressure usys, column := ToSI.recipFvf usys :: otherConv }
      (col :: otherCols))
    (_hasc : x.Pairwise (fun p q => p < q)) (hlen : col.length = x.length)
    (hexact : prim.ExactAtNodes self.interp_.x_ self.interp_.y_)
    (i : Nat) (xi bi : ℚ) (hxi : x[i]? = some xi) (hbi : col[i]? = some bi) :
    (∀ (ps : List ℚ) (j : Nat), ps[j]? = some (ToSI.pressure usys xi) →
      (self.formationVolumeFactor ps)[j]? = some (1 / ToSI.recipFvf usys bi)) ∧
    ∃ g : FlowDiagnostics.Graph, self.getPvtCurve RawCurve.FVF = .ok g ∧
      g.1[i]? = some (ToSI.pressure usys xi) ∧
      g.2[i]? = some (1 / ToSI.recipFvf usys bi) := by
  have hx : self.interp_.x_ = x.map (ToSI.pressure usys) := by
    rw [hself]; rfl
  have hy : self.interp_.y_[0]? = some (col.map (ToSI.recipFvf usys)) := by
    rw [hself]
    simp [PVDx.construct, Linear.construct, ← hlen]
  have hxi' : self.interp_.x_[i]? = some (ToSI.pressure usys xi) := by
    rw [hx, List.getElem?_map, hxi]; rfl
  have hbi' : (col.map (ToSI.recipFvf usys))[i]? = some (ToSI.recipFvf usys bi) := by
    rw [List.getElem?_map, hbi]; rfl
  have he := hexact 0 i _ _ _ hy hxi' hbi'
  have hev : self.interp_.evaluate 0 (self.interp_.classifyPoint (ToSI.pressure usys xi)) =
      ToSI.recipFvf usys bi := by
    rw [hself] at he ⊢
    exact he
  constructor
  · intro ps j hj
    rw [PVDx.formationVolumeFactor_eq_map, List.getElem?_map, hj]
    simp only [Option.map, hev]
  · refine ⟨_, PVDx.getPvtCurve_FVF_eq self _ hy (by rw [hx]; simp [hlen]), hxi', ?_⟩
    simp only [List.getElem?_map, hbi, Option.map]

/-- The sample evaluator is such a table: piecewise linear interpolation is
exact at its nodes, and at the second row (native pressure 200, native
reciprocal FVF 1) query access and raw-curve access agree. -/
theorem formationVolumeFactor_round_trip_witness :
    piecewiseLinear.ExactAtNodes samplePVDx.interp_.x_ samplePVDx.interp_.y_ ∧
    (samplePVDx.formationVolumeFactor
        [ToSI.pressure sampleUnits 100, ToSI.pressure sampleUnits 200])[1]? =
      some (1 / ToSI.recipFvf sampleUnits 1) ∧
    ∃ g : FlowDiagnostics.Graph, samplePVDx.getPvtCurve RawCurve.FVF = .ok g ∧
      g.1[1]? = some (ToSI.pressure sampleUnits 200) ∧
      g.2[1]? = some (1 / ToSI.recipFvf sampleUnits 1) :=
  ⟨piecewiseLinear_exact_sample,
   (formationVolumeFactor_round_trip piecewiseLinear sampleUnits
    (by simp [UnitSystem.NonZero, sampleUnits]) [100, 200, 300] [5 / 4, 1, 1 / 2] [[3, 2, 1]]
    [ToSI.recipFvfVisc sampleUnits] samplePVDx rfl (by norm_num) rfl
    piecewiseLinear_exact_sample 1 200 1 rfl rfl).1
      [ToSI.pressure sampleUnits 100, ToSI.pressure sampleUnits 200] 1 rfl,
   (formationVolumeFactor_round_trip piecewiseLinear sampleUnits
    (by simp [UnitSystem.NonZero, sampleUnits]) [100, 200, 300] [5 / 4, 1, 1 / 2] [[3, 2, 1]]
    [ToSI.recipFvfVisc sampleUnits] samplePVDx rfl (by norm_num) rfl
    piecewiseLinear_exact_sample 1 200 1 rfl rfl).2⟩

/-! ## Dimensional consistency of the converters -/

/-- A converter with scale `1 / (B * A)` maps a native difference quotient to
the quotient of the converted differences, when ordinates are converted with
scale `1 / B` and abscissae with scale `A`. -/
theorem deriv_converter_quotient (B A y1 y2 a1 a2 : ℚ) :
    (y2 - y1) / (a2 - a1) * (1 / (B * A)) =
      (y2 * (1 / B) - y1 * (1 / B)) / (a2 * A - a1 * A) := by
  rw [← sub_mul, ← sub_mul, mul_div_mul_comm, div_div]

/-- C12 (over exact arithmetic): the derivative converters commute with
difference quotients over exact arithmetic: for every unit system with non-zero scales, all native ordinates `y1`, `y2` and
all native abscissae `a1 ≠ a2`, converting the quotient `(y2-y1)/(a2-a1)`
with a derivative converter gives the quotient of the converted ordinate
difference by the converted abscissa difference, the abscissa converted with
`pressure` for the `DerivPress` converters and with `vapOil` for the
`DerivVapOil` converters, in each of the four families `recipFvf`,
`recipFvfVisc`, `recipFvfGas` and `recipFvfGasVisc`. -/
theorem deriv_converters_commute (usys : UnitSystem) (_hU : usys.NonZero)
    (y1 y2 a1 a2 : ℚ) (_ha : a1 ≠ a2) :
    (ToSI.recipFvfDerivPress usys ((y2 - y1) / (a2 - a1)) =
        (ToSI.recipFvf usys y2 - ToSI.recipFvf usys y1) /
          (ToSI.pressure usys a2 - ToSI.pressure usys a1) ∧
      ToSI.recipFvfDerivVapOil usys ((y2 - y1) / (a2 - a1)) =
        (ToSI.recipFvf usys y2 - ToSI.recipFvf usys y1) /
          (ToSI.vapOil usys a2 - ToSI.vapOil usys a1)) ∧
    (ToSI.recipFvfViscDerivPress usys ((y2 - y1) / (a2 - a1)) =
        (ToSI.recipFvfVisc usys y2 - ToSI.recipFvfVisc usys y1) /
          (ToSI.pressure usys a2 - ToSI.pressure usys a1) ∧
      ToSI.recipFvfViscDerivVapOil usys ((y2 - y1) / (a2 - a1)) =
        (ToSI.recipFvfVisc usys y2 - ToSI.recipFvfVisc usys y1) /
          (ToSI.vapOil usys a2 - ToSI.vapOil usys a1)) ∧
    (ToSI.recipFvfGasDerivPress usys ((y2 - y1) / (a2 - a1)) =
        (ToSI.recipFvfGas usys y2 - ToSI.recipFvfGas usys y1) /
          (ToSI.pressure usys a2 - ToSI.pressure usys a1) ∧
      ToSI.recipFvfGasDerivVapOil usys ((y2 - y1) / (a2 - a1)) =
        (ToSI.recipFvfGas usys y2 - ToSI.recipFvfGas usys y1) /
          (ToSI.vapOil usys a2 - ToSI.vapOil usys a1)) ∧
    (ToSI.recipFvfGasViscDerivPress usys ((y2 - y1) / (a2 - a1)) =
        (ToSI.recipFvfGasVisc usys y2 - ToSI.recipFvfGasVisc usys y1) /
          (ToSI.pressure usys a2 - ToSI.pressure usys a1) ∧
      ToSI.recipFvfGasViscDerivVapOil usys ((y2 - y1) / (a2 - a1)) =
        (ToSI.recipFvfGasVisc usys y2 - ToSI.recipFvfGasVisc usys y1) /
          (ToSI.vapOil usys a2 - ToSI.vapOil usys a1)) := by
  refine ⟨⟨?_, ?_⟩, ⟨?_, ?_⟩, ⟨?_, ?_⟩, ⟨?_, ?_⟩⟩
  · exact deriv_converter_quotient (fvfScale usys) usys.pressure y1 y2 a1 a2
  · exact deriv_converter_quotient (fvfScale usys) (rvScale usys) y1 y2 a1 a2
  · exact deriv_converter_quotient (fvfScale usys * usys.viscosity) usys.pressure
      y1 y2 a1 a2
  · exact deriv_converter_quotient (fvfScale usys * usys.viscosity) (rvScale usys)
      y1 y2 a1 a2
  · exact deriv_converter_quotient (fvfGasScale usys) usys.pressure y1 y2 a1 a2
  · exact deriv_converter_quotient (fvfGasScale usys) (rvScale usys) y1 y2 a1 a2
  · exact deriv_converter_quotient (fvfGasScale usys * usys.viscosity) usys.pressure
      y1 y2 a1 a2
  · exact deriv_converter_quotient (fvfGasScale usys * usys.viscosity) (rvScale usys)
      y1 y2 a1 a2

/-- In the sample unit system, with ordinates 2 and 5 at the abscissae 1 and
3, `recipFvfGasViscDerivVapOil` commutes with the difference quotient. -/
theorem deriv_converters_commute_witness :
    sampleUnits.NonZero ∧ (1 : ℚ) ≠ 3 ∧
      ToSI.recipFvfGasViscDerivVapOil sampleUnits ((5 - 2) / (3 - 1)) =
        (ToSI.recipFvfGasVisc sampleUnits 5 - ToSI.recipFvfGasVisc sampleUnits 2) /
          (ToSI.vapOil sampleUnits 3 - ToSI.vapOil sampleUnits 1) :=
  ⟨by simp [UnitSystem.NonZero, sampleUnits], by norm_num,
   (deriv_converters_commute sampleUnits (by simp [UnitSystem.NonZero, sampleUnits])
      2 5 1 3 (by norm_num)).2.2.2.2⟩

/-- C15: for every unit system with non-zero scales, `fvfScale * rvScale =
fvfGasScale`, so the liquid-phase converter `recipFvfDerivVapOil` is the same
function as the gas-phase converter `recipFvfGas` over exact arithmetic, and
`recipFvfViscDerivVapOil` is the same function as `recipFvfGasVisc`. -/
theorem derivVapOil_eq_gas (usys : UnitSystem) (hU : usys.NonZero) :
    fvfScale usys * rvScale usys = fvfGasScale usys ∧
    ToSI.recipFvfDerivVapOil usys = ToSI.recipFvfGas usys ∧
    ToSI.recipFvfViscDerivVapOil usys = ToSI.recipFvfGasVisc usys := by
  obtain ⟨_, _, _, hG, hL, _⟩ := hU
  have key : fvfScale usys * rvScale usys = fvfGasScale usys := by
    unfold fvfScale rvScale fvfGasScale
    field_simp
  refine ⟨key, ?_, ?_⟩
  · show createConverterToSI (1 / (fvfScale usys * rvScale usys)) =
      createConverterToSI (1 / fvfGasScale usys)
    rw [key]
  · show createConverterToSI (1 / (fvfScale usys * usys.viscosity * rvScale usys)) =
      createConverterToSI (1 / (fvfGasScale usys * usys.viscosity))
    have h : fvfScale usys * usys.viscosity * rvScale usys =
        fvfScale usys * rvScale usys * usys.viscosity := by ring
    rw [h, key]

/-- In the sample unit system `3/7 * 7/5 = 3/5`, and the two pairs of
converters coincide. -/
theorem derivVapOil_eq_gas_witness :
    sampleUnits.NonZero ∧
      fvfScale sampleUnits * rvScale sampleUnits = fvfGasScale sampleUnits ∧
      ToSI.recipFvfDerivVapOil sampleUnits = ToSI.recipFvfGas sampleUnits ∧
      ToSI.recipFvfViscDerivVapOil sampleUnits = ToSI.recipFvfGasVisc sampleUnits :=
  ⟨by simp [UnitSystem.NonZero, sampleUnits],
   derivVapOil_eq_gas sampleUnits (by simp [UnitSystem.NonZero, sampleUnits])⟩

/-- C17: for every unit system with non-zero surface-volume scales,
`rsScale * rvScale = 1`, so the `disGas` and `vapOil` converters are mutually
inverse over exact arithmetic; and with a non-zero pressure scale
`compressibility` undoes `pressure`. -/
theorem converters_inverse (usys : UnitSystem) (x : ℚ) :
    (usys.surfaceVolumeGas ≠ 0 → usys.surfaceVolumeLiquid ≠ 0 →
      rsScale usys * rvScale usys = 1 ∧
      ToSI.vapOil usys (ToSI.disGas usys x) = x ∧
      ToSI.disGas usys (ToSI.vapOil usys x) = x) ∧
    (usys.pressure ≠ 0 → ToSI.compressibility usys (ToSI.pressure usys x) = x) := by
  constructor
  · intro hG hL
    have key : rsScale usys * rvScale usys = 1 := by
      unfold rsScale rvScale
      field_simp
    refine ⟨key, ?_, ?_⟩
    · show x * rsScale usys * rvScale usys = x
      rw [mul_assoc, key, mul_one]
    · show x * rvScale usys * rsScale usys = x
      rw [mul_assoc, mul_comm (rvScale usys), key, mul_one]
  · intro hP
    show x * usys.pressure * (1 / usys.pressure) = x
    field_simp

/-- In the sample unit system the surface-volume scales 5 and 7 and the
pressure scale are not zero, and the converters undo each other at 2. -/
theorem converters_inverse_witness :
    (rsScale sampleUnits * rvScale sampleUnits = 1 ∧
      ToSI.vapOil sampleUnits (ToSI.disGas sampleUnits 2) = 2 ∧
      ToSI.disGas sampleUnits (ToSI.vapOil sampleUnits 2) = 2) ∧
    ToSI.compressibility sampleUnits (ToSI.pressure sampleUnits 2) = 2 :=
  ⟨(converters_inverse sampleUnits 2).1 (by simp [sampleUnits]) (by simp [sampleUnits]),
   (converters_inverse sampleUnits 2).2 (by simp [sampleUnits])⟩

/-! ## Reads of the density table -/

/-- A slice of a list is the list of its entries at the sliced indices. -/
theorem drop_take_eq_map_range' (l : List ℚ) (a n : Nat) (h : a + n ≤ l.length) :
    (l.drop a).take n = (List.range' a n).map (fun i => l.getD i 0) := by
  apply List.ext_getElem?
  intro j
  by_cases hj : j < n
  · have h1 : a + j < l.length := by omega
    simp [List.getElem?_take, hj, List.getElem?_drop, List.getElem?_map, List.getElem?_range',
      List.getElem?_eq_getElem h1]
  · have h1 : n ≤ j := by omega
    rw [List.getElem?_eq_none (by simp; omega), List.getElem?_eq_none (by simpa using h1)]

/-- The indices read by `surfaceMassDensity` on an input without
wrap-around: the `nreg` indices from `start + nreg*c` on. -/
theorem surfaceMassDensityTabReads_eq (ext : Collaborators) (init : ECLInitFileData)
    (phase : ECLPhaseIndex) (c : Nat) (off nreg : Int)
    (hphase : phaseColumn phase = .ok c) (hc : c ≤ 2)
    (hoff : (init.keywordDataInt "TABDIMS")[ext.TABDIMS_IBDENS_OFFSET_ITEM]? = some off)
    (hnreg : (init.keywordDataInt "TABDIMS")[ext.TABDIMS_NTDENS_ITEM]? = some nreg)
    (hfirst : 0 ≤ off - 1 + nreg * c) (hn0 : 0 ≤ nreg)
    (hlast : off - 1 + nreg * (c + 1) ≤ (init.keywordDataDouble "TAB").length)
    (hsize : (init.keywordDataDouble "TAB").length < 2 ^ 64) :
    surfaceMassDensityTabReads ext init phase =
      .ok (List.range' (off - 1 + nreg * c).toNat nreg.toNat) := by
  have hmul : nreg * (c : Int) ≤ nreg * ((c : Int) + 1) := by nlinarith
  have hsz : ((init.keywordDataDouble "TAB").length : Int) < 2 ^ 64 := by exact_mod_cast hsize
  have i0 : densIndex (off - 1) nreg c 0 = (off - 1 + nreg * c).toNat := by
    rw [densIndex_eq _ _ _ _ (by omega) (by simpa using hfirst)
      (by simp only [Nat.add_zero]; linarith)]
    simp
  have i1 : densIndex (off - 1) nreg c 1 = (off - 1 + nreg * (c + 1)).toNat := by
    rw [densIndex_eq _ _ _ _ (by omega) (by push_cast; linarith) (by push_cast; linarith)]
    simp
  have hsub : (off - 1 + nreg * (c + 1)).toNat - (off - 1 + nreg * c).toNat = nreg.toNat := by
    have h3 : off - 1 + nreg * (c + 1) = (off - 1 + nreg * c) + nreg := by ring
    rw [h3, Int.toNat_add hfirst hn0]
    omega
  simp [surfaceMassDensityTabReads, hphase, elementAt, hoff, hnreg, except_ok_bind,
    pointerRangeReads, i0, i1, hsub, pure, Except.pure]

/-- C13 (as the code has it): for every valid phase with column index `c`,
if the TABDIMS density offset is at least 1, `regionCount` is not negative
and `(offset - 1) + regionCount*(c + 1) ≤ |TAB|` (for which
`(offset - 1) + 3*regionCount ≤ |TAB|` suffices, for all three phases), then
`surfaceMassDensity` reads exactly the `regionCount` indices of the requested
phase's own block: every TAB index read lies in `[0, |TAB|)`, is at least
`(offset - 1) + regionCount*c` and at most
`(offset - 1) + regionCount*(c + 1) - 1`, and the latter index is read when
`regionCount ≥ 1`; the slice is then built without an out-of-bounds failure
and the result holds the entries at the indices read, scaled. -/
theorem surfaceMassDensity_reads_in_bounds (ext : Collaborators) (init : ECLInitFileData)
    (phase : ECLPhaseIndex) (c : Nat) (off nreg : Int)
    (hphase : (phase = ECLPhaseIndex.Liquid ∧ c = 0) ∨ (phase = ECLPhaseIndex.Aqua ∧ c = 1) ∨
      (phase = ECLPhaseIndex.Vapour ∧ c = 2))
    (hoff : (init.keywordDataInt "TABDIMS")[ext.TABDIMS_IBDENS_OFFSET_ITEM]? = some off)
    (hnreg : (init.keywordDataInt "TABDIMS")[ext.TABDIMS_NTDENS_ITEM]? = some nreg)
    (hoff1 : 1 ≤ off) (hn0 : 0 ≤ nreg)
    (hlast : off - 1 + nreg * (c + 1) ≤ (init.keywordDataDouble "TAB").length ∨
      off - 1 + 3 * nreg ≤ (init.keywordDataDouble "TAB").length)
    (hsize : (init.keywordDataDouble "TAB").length < 2 ^ 64) :
    surfaceMassDensityTabReads ext init phase =
      .ok (List.range' (off - 1 + nreg * c).toNat nreg.toNat) ∧
    (∀ i ∈ List.range' (off - 1 + nreg * c).toNat nreg.toNat,
      i < (init.keywordDataDouble "TAB").length ∧
      off - 1 + nreg * c ≤ (i : Int) ∧ (i : Int) ≤ off - 1 + nreg * (c + 1) - 1) ∧
    (1 ≤ nreg → (off - 1 + nreg * (c + 1) - 1).toNat ∈
      List.range' (off - 1 + nreg * c).toNat nreg.toNat) ∧
    (∀ (code : Int) (u : UnitSystem),
      (init.keywordDataInt ext.INTEHEAD_KW)[ext.INTEHEAD_UNIT_INDEX]? = some code →
      ext.createUnitSystem code = some u →
      surfaceMassDensity ext init phase =
        .ok ((List.range' (off - 1 + nreg * c).toNat nreg.toNat).map
          (fun i => (init.keywordDataDouble "TAB").getD i 0 * u.density))) := by
  obtain ⟨hcol, hc⟩ := phaseColumn_valid phase c hphase
  have hcz : (0 : Int) ≤ c := Int.ofNat_nonneg c
  have hnc : 0 ≤ nreg * (c : Int) := mul_nonneg hn0 hcz
  have hfirst : 0 ≤ off - 1 + nreg * c := by linarith
  have hlast' : off - 1 + nreg * (c + 1) ≤ (init.keywordDataDouble "TAB").length := by
    rcases hlast with h | h
    · exact h
    · have hc2 : (c : Int) + 1 ≤ 3 := by exact_mod_cast Nat.succ_le_succ hc
      have : nreg * ((c : Int) + 1) ≤ nreg * 3 := mul_le_mul_of_nonneg_left hc2 hn0
      linarith
  have h3 : off - 1 + nreg * (c + 1) = (off - 1 + nreg * c) + nreg := by ring
  have hs : ((off - 1 + nreg * c).toNat : Int) = off - 1 + nreg * c := Int.toNat_of_nonneg hfirst
  have hn : (nreg.toNat : Int) = nreg := Int.toNat_of_nonneg hn0
  have hle : (off - 1 + nreg * c).toNat + nreg.toNat ≤ (init.keywordDataDouble "TAB").length := by
    have : (((off - 1 + nreg * c).toNat + nreg.toNat : Nat) : Int) ≤
        ((init.keywordDataDouble "TAB").length : Int) := by
      push_cast; rw [hs, hn]; linarith
    exact_mod_cast this
  refine ⟨surfaceMassDensityTabReads_eq ext init phase c off nreg hcol hc hoff hnreg hfirst hn0
    hlast' hsize, ?_, ?_, ?_⟩
  · intro i hi
    rw [List.mem_range'_1] at hi
    have hi1 : ((off - 1 + nreg * c).toNat : Int) ≤ (i : Int) := by exact_mod_cast hi.1
    have hi2 : (i : Int) < (((off - 1 + nreg * c).toNat + nreg.toNat : Nat) : Int) := by
      exact_mod_cast hi.2
    push_cast at hi2
    rw [hs] at hi1
    rw [hs, hn] at hi2
    refine ⟨by omega, hi1, by linarith⟩
  · intro h1
    rw [List.mem_range'_1]
    have hm : ((off - 1 + nreg * (c + 1) - 1).toNat : Int) = off - 1 + nreg * (c + 1) - 1 :=
      Int.toNat_of_nonneg (by linarith)
    constructor
    · have : ((off - 1 + nreg * c).toNat : Int) ≤ ((off - 1 + nreg * (c + 1) - 1).toNat : Int) := by
        rw [hs, hm]; linarith
      exact_mod_cast this
    · have : ((off - 1 + nreg * (c + 1) - 1).toNat : Int) <
          (((off - 1 + nreg * c).toNat + nreg.toNat : Nat) : Int) := by
        push_cast; rw [hs, hn, hm]; linarith
      exact_mod_cast this
  · intro code u hcode hu
    rw [surfaceMassDensity_eq ext init phase c off nreg code u hcol hc hoff hnreg hfirst hn0
      hlast' hsize hcode hu, drop_take_eq_map_range' _ _ _ hle, List.map_map]
    rfl

/-- The density scenario and the phase Vapour (column 2) satisfy the
hypotheses with `(5 - 1) + 2*(2 + 1) = 10 = |TAB|`: the indices read are 8
and 9, the largest being `(5 - 1) + 2*3 - 1 = 9`, and the result holds the
two entries at these indices. -/
theorem surfaceMassDensity_reads_in_bounds_witness :
    surfaceMassDensityTabReads sampleCollaborators scenarioInit ECLPhaseIndex.Vapour =
      .ok (List.range' ((5 : Int) - 1 + 2 * ((2 : Nat) : Int)).toNat (2 : Int).toNat) ∧
    (8 < (scenarioInit.keywordDataDouble "TAB").length ∧
      (5 : Int) - 1 + 2 * ((2 : Nat) : Int) ≤ ((8 : Nat) : Int) ∧
      ((8 : Nat) : Int) ≤ (5 : Int) - 1 + 2 * (((2 : Nat) : Int) + 1) - 1) ∧
    ((5 : Int) - 1 + 2 * (((2 : Nat) : Int) + 1) - 1).toNat ∈
      List.range' ((5 : Int) - 1 + 2 * ((2 : Nat) : Int)).toNat (2 : Int).toNat ∧
    surfaceMassDensity sampleCollaborators scenarioInit ECLPhaseIndex.Vapour =
      .ok ((List.range' ((5 : Int) - 1 + 2 * ((2 : Nat) : Int)).toNat (2 : Int).toNat).map
        (fun i => (scenarioInit.keywordDataDouble "TAB").getD i 0 *
          (UnitSystem.mk 1 1 1 1 1 1).density)) := by
  have h := surfaceMassDensity_reads_in_bounds sampleCollaborators scenarioInit
    ECLPhaseIndex.Vapour 2 5 2 (Or.inr (Or.inr ⟨rfl, rfl⟩))
    (by simp [scenarioInit, sampleCollaborators])
    (by simp [scenarioInit, sampleCollaborators])
    (by norm_num) (by norm_num)
    (Or.inl (by simp [scenarioInit]))
    (by simp [scenarioInit])
  exact ⟨h.1, h.2.1 8 (by simp), h.2.2.1 (by norm_num),
    h.2.2.2 1 (UnitSystem.mk 1 1 1 1 1 1) (by simp [scenarioInit, sampleCollaborators])
      (by simp [sampleCollaborators])⟩

/-- C13 as stated fails for `regionCount = 0`: with the density offset 5, no
fluid region and ten entries in TAB the precondition holds for Liquid
(`5 ≥ 1`, `0 ≥ 0`, `(5 - 1) + 0*(0 + 1) ≤ 10`), but no index of TAB is read,
so the index `(5 - 1) + 0*(0 + 1) - 1 = 3` is not the largest index read. -/
theorem surfaceMassDensity_reads_in_bounds_counterexample :
    (emptyRegionInit.keywordDataInt "TABDIMS")[sampleCollaborators.TABDIMS_IBDENS_OFFSET_ITEM]? =
      some 5 ∧
    (emptyRegionInit.keywordDataInt "TABDIMS")[sampleCollaborators.TABDIMS_NTDENS_ITEM]? =
      some 0 ∧
    (5 : Int) - 1 + 0 * (((0 : Nat) : Int) + 1) ≤
      ((emptyRegionInit.keywordDataDouble "TAB").length : Int) ∧
    surfaceMassDensityTabReads sampleCollaborators emptyRegionInit ECLPhaseIndex.Liquid =
      .ok [] ∧
    ¬ ∃ reads : List Nat,
      surfaceMassDensityTabReads sampleCollaborators emptyRegionInit ECLPhaseIndex.Liquid =
        .ok reads ∧
      ((5 : Int) - 1 + 0 * (((0 : Nat) : Int) + 1) - 1).toNat ∈ reads := by
  have hreads : surfaceMassDensityTabReads sampleCollaborators emptyRegionInit
      ECLPhaseIndex.Liquid = .ok [] := by
    simp [surfaceMassDensityTabReads, sampleCollaborators, emptyRegionInit, phaseColumn,
      elementAt, pointerRangeReads, densIndex, toSizeT, except_ok_bind, ECLPhaseIndex.Liquid,
      ECLPhaseIndex.Aqua, pure, Except.pure]
  refine ⟨by simp [emptyRegionInit, sampleCollaborators],
    by simp [emptyRegionInit, sampleCollaborators], by simp [emptyRegionInit], hreads, ?_⟩
  rintro ⟨reads, h, hmem⟩
  rw [hreads] at h
  cases h
  simp at hmem

/-- Three consecutive slices of equal width make up the slice of threefold
width. -/
theorem three_slices (l : List ℚ) (s n : Nat) :
    (l.drop s).take n ++ (l.drop (s + n)).take n ++ (l.drop (s + n + n)).take n =
      (l.drop s).take (3 * n) := by
  have h3 : 3 * n = n + n + n := by omega
  rw [h3, List.take_add, List.take_add, List.drop_drop, List.drop_drop, Nat.add_assoc]

/-- C16: for every input that is in bounds for all three phases, the three
phase results partition the density table: the index ranges read for Liquid,
Aqua and Vapour are pairwise disjoint, together they are the `3*regionCount`
consecutive indices from `start` on, and the concatenation
`result(Liquid) ++ result(Aqua) ++ result(Vapour)` is the sequence of the
entries `TAB[start .. start + 3*regionCount)`, each multiplied by the density
scale. -/
theorem surfaceMassDensity_partition (ext : Collaborators) (init : ECLInitFileData)
    (off nreg code : Int) (u : UnitSystem)
    (hoff : (init.keywordDataInt "TABDIMS")[ext.TABDIMS_IBDENS_OFFSET_ITEM]? = some off)
    (hnreg : (init.keywordDataInt "TABDIMS")[ext.TABDIMS_NTDENS_ITEM]? = some nreg)
    (hoff1 : 1 ≤ off) (hn0 : 0 ≤ nreg)
    (hlast : off - 1 + 3 * nreg ≤ (init.keywordDataDouble "TAB").length)
    (hsize : (init.keywordDataDouble "TAB").length < 2 ^ 64)
    (hcode : (init.keywordDataInt ext.INTEHEAD_KW)[ext.INTEHEAD_UNIT_INDEX]? = some code)
    (hu : ext.createUnitSystem code = some u) :
    ∃ rL rA rV : List ℚ, ∃ readsL readsA readsV : List Nat,
      surfaceMassDensity ext init ECLPhaseIndex.Liquid = .ok rL ∧
      surfaceMassDensity ext init ECLPhaseIndex.Aqua = .ok rA ∧
      surfaceMassDensity ext init ECLPhaseIndex.Vapour = .ok rV ∧
      surfaceMassDensityTabReads ext init ECLPhaseIndex.Liquid = .ok readsL ∧
      surfaceMassDensityTabReads ext init ECLPhaseIndex.Aqua = .ok readsA ∧
      surfaceMassDensityTabReads ext init ECLPhaseIndex.Vapour = .ok readsV ∧
      readsL.Disjoint readsA ∧ readsL.Disjoint readsV ∧ readsA.Disjoint readsV ∧
      readsL ++ readsA ++ readsV = List.range' (off - 1).toNat (3 * nreg.toNat) ∧
      rL ++ rA ++ rV =
        (((init.keywordDataDouble "TAB").drop (off - 1).toNat).take (3 * nreg.toNat)).map
          (fun t => t * u.density) := by
  obtain ⟨hL, hcL⟩ := phaseColumn_valid ECLPhaseIndex.Liquid 0 (Or.inl ⟨rfl, rfl⟩)
  obtain ⟨hA, hcA⟩ := phaseColumn_valid ECLPhaseIndex.Aqua 1 (Or.inr (Or.inl ⟨rfl, rfl⟩))
  obtain ⟨hV, hcV⟩ := phaseColumn_valid ECLPhaseIndex.Vapour 2 (Or.inr (Or.inr ⟨rfl, rfl⟩))
  have e0 : (off - 1 + nreg * ((0 : Nat) : Int)).toNat = (off - 1).toNat := by simp
  have e1 : (off - 1 + nreg * ((1 : Nat) : Int)).toNat = (off - 1).toNat + nreg.toNat := by
    push_cast; omega
  have e2 : (off - 1 + nreg * ((2 : Nat) : Int)).toNat =
      (off - 1).toNat + nreg.toNat + nreg.toNat := by
    push_cast; omega
  have sL := surfaceMassDensity_eq ext init _ 0 off nreg code u hL hcL hoff hnreg
    (by push_cast; omega) hn0 (by push_cast; omega) hsize hcode hu
  have sA := surfaceMassDensity_eq ext init _ 1 off nreg code u hA hcA hoff hnreg
    (by push_cast; omega) hn0 (by push_cast; omega) hsize hcode hu
  have sV := surfaceMassDensity_eq ext init _ 2 off nreg code u hV hcV hoff hnreg
    (by push_cast; omega) hn0 (by push_cast; omega) hsize hcode hu
  have tL := surfaceMassDensityTabReads_eq ext init _ 0 off nreg hL hcL hoff hnreg
    (by push_cast; omega) hn0 (by push_cast; omega) hsize
  have tA := surfaceMassDensityTabReads_eq ext init _ 1 off nreg hA hcA hoff hnreg
    (by push_cast; omega) hn0 (by push_cast; omega) hsize
  have tV := surfaceMassDensityTabReads_eq ext init _ 2 off nreg hV hcV hoff hnreg
    (by push_cast; omega) hn0 (by push_cast; omega) hsize
  rw [e0] at sL tL
  rw [e1] at sA tA
  rw [e2] at sV tV
  refine ⟨_, _, _, _, _, _, sL, sA, sV, tL, tA, tV, ?_, ?_, ?_, ?_, ?_⟩
  · intro i h1 h2
    rw [List.mem_range'_1] at h1 h2
    omega
  · intro i h1 h2
    rw [List.mem_range'_1] at h1 h2
    omega
  · intro i h1 h2
    rw [List.mem_range'_1] at h1 h2
    omega
  · have h3 : 3 * nreg.toNat = nreg.toNat + nreg.toNat + nreg.toNat := by omega
    rw [List.range'_append_1, Nat.add_assoc, List.range'_append_1, h3, Nat.add_assoc]
  · rw [← List.map_append, ← List.map_append, three_slices]

/-- The density scenario is in bounds for all three phases
(`(5 - 1) + 3*2 = 10 = |TAB|`): the results `[850, 860]`, `[1000, 1010]` and
`[1, 2]` are read at `[4, 5]`, `[6, 7]` and `[8, 9]`, and together they are
the six entries of TAB from index 4 on. -/
theorem surfaceMassDensity_partition_witness :
    ∃ rL rA rV : List ℚ, ∃ readsL readsA readsV : List Nat,
      surfaceMassDensity sampleCollaborators scenarioInit ECLPhaseIndex.Liquid = .ok rL ∧
      surfaceMassDensity sampleCollaborators scenarioInit ECLPhaseIndex.Aqua = .ok rA ∧
      surfaceMassDensity sampleCollaborators scenarioInit ECLPhaseIndex.Vapour = .ok rV ∧
      surfaceMassDensityTabReads sampleCollaborators scenarioInit ECLPhaseIndex.Liquid =
        .ok readsL ∧
      surfaceMassDensityTabReads sampleCollaborators scenarioInit ECLPhaseIndex.Aqua =
        .ok readsA ∧
      surfaceMassDensityTabReads sampleCollaborators scenarioInit ECLPhaseIndex.Vapour =
        .ok readsV ∧
      readsL.Disjoint readsA ∧ readsL.Disjoint readsV ∧ readsA.Disjoint readsV ∧
      readsL ++ readsA ++ readsV = List.range' ((5 : Int) - 1).toNat (3 * (2 : Int).toNat) ∧
      rL ++ rA ++ rV =
        (((scenarioInit.keywordDataDouble "TAB").drop ((5 : Int) - 1).toNat).take
          (3 * (2 : Int).toNat)).map (fun t => t * (UnitSystem.mk 1 1 1 1 1 1).density) :=
  surfaceMassDensity_partition sampleCollaborators scenarioInit 5 2 1
    (UnitSystem.mk 1 1 1 1 1 1)
    (by simp [scenarioInit, sampleCollaborators])
    (by simp [scenarioInit, sampleCollaborators])
    (by norm_num) (by norm_num)
    (by simp [scenarioInit])
    (by simp [scenarioInit])
    (by simp [scenarioInit, sampleCollaborators])
    (by simp [sampleCollaborators])

/-! ## Unit algebra of the raw curves -/

/-- The raw curves of a table whose first column is converted with scale
`1 / B` and whose second column is converted with scale `1 / (B * mu)`: the
viscosity ordinates carry the scale `mu` and the FVF ordinates the scale
`B`. -/
theorem getPvtCurve_scaled (prim : Primitive EvalPt) (x b m : List ℚ) (indep : Converter)
    (B mu : ℚ) (hB : B ≠ 0)
    (hb : b.length = x.length) (hm : m.length = x.length) :
    ∃ gF gV : FlowDiagnostics.Graph,
      (PVDx.construct prim x
        { indep := indep,
          column := [createConverterToSI (1 / B), createConverterToSI (1 / (B * mu))] }
        [b, m]).getPvtCurve RawCurve.FVF = .ok gF ∧
      (PVDx.construct prim x
        { indep := indep,
          column := [createConverterToSI (1 / B), createConverterToSI (1 / (B * mu))] }
        [b, m]).getPvtCurve RawCurve.Viscosity = .ok gV ∧
      ∀ (i : Nat) (bi mi : ℚ), b[i]? = some bi → m[i]? = some mi → bi ≠ 0 → mi ≠ 0 →
        gV.2[i]? = some (bi / mi * mu) ∧ gF.2[i]? = some (1 / bi * B) := by
  have h0 : (PVDx.construct prim x
      { indep := indep,
        column := [createConverterToSI (1 / B), createConverterToSI (1 / (B * mu))] }
      [b, m]).interp_.y_[0]? = some (b.map (createConverterToSI (1 / B))) := by
    simp [PVDx.construct, Linear.construct, ← hb]
  have h1 : (PVDx.construct prim x
      { indep := indep,
        column := [createConverterToSI (1 / B), createConverterToSI (1 / (B * mu))] }
      [b, m]).interp_.y_[1]? = some (m.map (createConverterToSI (1 / (B * mu)))) := by
    simp [PVDx.construct, Linear.construct, ← hm]
  have hx : (PVDx.construct prim x
      { indep := indep,
        column := [createConverterToSI (1 / B), createConverterToSI (1 / (B * mu))] }
      [b, m]).interp_.x_.length = x.length := by
    simp [PVDx.construct, Linear.construct]
  refine ⟨_, _, PVDx.getPvtCurve_FVF_eq _ _ h0 (by rw [hx]; simp [hb]),
    PVDx.getPvtCurve_Viscosity_eq _ _ _ h0 h1 (by rw [hx]; simp [hb]) (by rw [hx]; simp [hm]),
    ?_⟩
  intro i bi mi hbi hmi hbi0 hmi0
  constructor
  · rw [PVDx.viscosityLoop_getElem? _ _ i (createConverterToSI (1 / B) bi)
      (createConverterToSI (1 / (B * mu)) mi) (by simp [List.getElem?_map, hbi])
      (by simp [List.getElem?_map, hmi])]
    simp only [createConverterToSI, unit.convert.from]
    congr 1
    field_simp
    ring
  · simp only [List.getElem?_map, hbi, Option.map, createConverterToSI, unit.convert.from]
    congr 1
    field_simp

/-- C14 (over exact arithmetic): the unit algebra of the curve evaluator is
consistent over exact arithmetic: for every unit system with non-zero scales and every table whose column 0 was converted
with `recipFvf` and column 1 with `recipFvfVisc` (native entries `b_i`, `m_i`
not zero), the `i`-th ordinate of `getPvtCurve Viscosity` is
`(b_i / m_i) * viscosity` (all volume scales cancel) and the `i`-th ordinate
of `getPvtCurve FVF` is `(1 / b_i) * fvfScale`; the same holds with the gas
converters `recipFvfGas`, `recipFvfGasVisc` and `fvfGasScale`. -/
theorem getPvtCurve_unit_algebra (prim : Primitive EvalPt) (usys : UnitSystem)
    (hU : usys.NonZero) (x b m : List ℚ) (indep : Converter)
    (hb : b.length = x.length) (hm : m.length = x.length) :
    (∃ gF gV : FlowDiagnostics.Graph,
      (PVDx.construct prim x
        { indep := indep, column := [ToSI.recipFvf usys, ToSI.recipFvfVisc usys] }
        [b, m]).getPvtCurve RawCurve.FVF = .ok gF ∧
      (PVDx.construct prim x
        { indep := indep, column := [ToSI.recipFvf usys, ToSI.recipFvfVisc usys] }
        [b, m]).getPvtCurve RawCurve.Viscosity = .ok gV ∧
      ∀ (i : Nat) (bi mi : ℚ), b[i]? = some bi → m[i]? = some mi → bi ≠ 0 → mi ≠ 0 →
        gV.2[i]? = some (bi / mi * usys.viscosity) ∧
        gF.2[i]? = some (1 / bi * fvfScale usys)) ∧
    (∃ gF gV : FlowDiagnostics.Graph,
      (PVDx.construct prim x
        { indep := indep, column := [ToSI.recipFvfGas usys, ToSI.recipFvfGasVisc usys] }
        [b, m]).getPvtCurve RawCurve.FVF = .ok gF ∧
      (PVDx.construct prim x
        { indep := indep, column := [ToSI.recipFvfGas usys, ToSI.recipFvfGasVisc usys] }
        [b, m]).getPvtCurve RawCurve.Viscosity = .ok gV ∧
      ∀ (i : Nat) (bi mi : ℚ), b[i]? = some bi → m[i]? = some mi → bi ≠ 0 → mi ≠ 0 →
        gV.2[i]? = some (bi / mi * usys.viscosity) ∧
        gF.2[i]? = some (1 / bi * fvfGasScale usys)) := by
  obtain ⟨_, _, hR, hG, hL, _⟩ := hU
  exact ⟨getPvtCurve_scaled prim x b m indep (fvfScale usys) usys.viscosity
      (div_ne_zero hR hL) hb hm,
    getPvtCurve_scaled prim x b m indep (fvfGasScale usys) usys.viscosity
      (div_ne_zero hR hG) hb hm⟩

/-- The sample evaluator is built with `recipFvf` and `recipFvfVisc` from
native columns without zero entries: at row 1 (`b = 1`, `m = 2`) its raw
viscosity is `1/2` times the viscosity scale and its raw FVF is `fvfScale`;
the same table built with the gas converters has `fvfGasScale` instead. -/
theorem getPvtCurve_unit_algebra_witness :
    (∃ gF gV : FlowDiagnostics.Graph,
      samplePVDx.getPvtCurve RawCurve.FVF = .ok gF ∧
      samplePVDx.getPvtCurve RawCurve.Viscosity = .ok gV ∧
      gV.2[1]? = some (1 / 2 * sampleUnits.viscosity) ∧
      gF.2[1]? = some (1 / 1 * fvfScale sampleUnits)) ∧
    (∃ gF gV : FlowDiagnostics.Graph,
      (PVDx.construct piecewiseLinear [100, 200, 300]
        { indep := ToSI.pressure sampleUnits,
          column := [ToSI.recipFvfGas sampleUnits, ToSI.recipFvfGasVisc sampleUnits] }
        [[5 / 4, 1, 1 / 2], [3, 2, 1]]).getPvtCurve RawCurve.FVF = .ok gF ∧
      (PVDx.construct piecewiseLinear [100, 200, 300]
        { indep := ToSI.pressure sampleUnits,
          column := [ToSI.recipFvfGas sampleUnits, ToSI.recipFvfGasVisc sampleUnits] }
        [[5 / 4, 1, 1 / 2], [3, 2, 1]]).getPvtCurve RawCurve.Viscosity = .ok gV ∧
      gV.2[1]? = some (1 / 2 * sampleUnits.viscosity) ∧
      gF.2[1]? = some (1 / 1 * fvfGasScale sampleUnits)) := by
  obtain ⟨⟨gF, gV, hF, hV, h⟩, ⟨gF', gV', hF', hV', h'⟩⟩ :=
    getPvtCurve_unit_algebra piecewiseLinear sampleUnits
      (by simp [UnitSystem.NonZero, sampleUnits]) [100, 200, 300] [5 / 4, 1, 1 / 2] [3, 2, 1]
      (ToSI.pressure sampleUnits) rfl rfl
  exact ⟨⟨gF, gV, hF, hV, h 1 1 2 rfl rfl (by norm_num) (by norm_num)⟩,
    ⟨gF', gV', hF', hV', h' 1 1 2 rfl rfl (by norm_num) (by norm_num)⟩⟩

/-! ## Identities that hold over exact arithmetic only

On doubles every operation rounds, and the identities of C8, C9, C12 and C14
that chain several operations fail at ordinary values. -/

set_option maxRecDepth 100000

/-- The rounded operations reproduce well-known doubles: `1.0/10.0` is
`0x3FB999999999999A`, `1.0/3.0` is `0x3FD5555555555555`, `3.0/10.0` is
`0x3FD3333333333333` while `(1.0/10.0)*3.0` is `0x3FD3333333333334`
(`0.30000000000000004`), `1.0 - 9.0/10.0` is `0x3FB9999999999998`
(`0.09999999999999998`), `(1.0/3.0)*3.0` is `1.0`, and `1.0/1000.0` is
`0x3F50624DD2F1A9FC`, the double nearest to `0.001`. -/
theorem binary64_known_values :
    (1 / 10 : Binary64) = ⟨0x1999999999999A, -56⟩ ∧
    (1 / 3 : Binary64) = ⟨0x15555555555555, -54⟩ ∧
    (3 / 10 : Binary64) = ⟨0x13333333333333, -54⟩ ∧
    ((1 / 10 : Binary64) * 3) = ⟨0x13333333333334, -54⟩ ∧
    ((1 : Binary64) - 9 / 10) = ⟨0x19999999999998, -56⟩ ∧
    ((1 / 3 : Binary64) * 3) = 1 ∧
    (1 / 1000 : Binary64) = ⟨0x10624DD2F1A9FC, -62⟩ := by
  refine ⟨by decide, by decide, by decide, by decide, by decide, by decide, by decide⟩

/-- C8 as stated fails on doubles: with the interpolated reciprocal FVF
`r = 49` (not zero) the formation volume factor is the double `1.0 / 49.0 =
0.02040816326530612`, and its product with `r` is `1 - 2^-53 =
0.9999999999999999`, not `1`. -/
theorem formationVolumeFactor_spec_counterexample :
    OnDoubles.formationVolumeFactor (fun _ => 49) [100] = [⟨5882252574524729, -58⟩] ∧
    (49 : Binary64) ≠ 0 ∧
    (OnDoubles.formationVolumeFactor (fun _ => 49) [100]).map (fun B => B * 49) =
      [⟨9007199254740991, -53⟩] ∧
    (1 : Binary64) = ⟨4503599627370496, -52⟩ ∧
    (OnDoubles.formationVolumeFactor (fun _ => 49) [100]).map (fun B => B * 49) ≠ [1] ∧
    (⟨9007199254740991, -53⟩ : Binary64).toRat = 1 - 1 / 2 ^ 53 ∧
    (⟨5882252574524729, -58⟩ : Binary64).InRange ∧
    (⟨9007199254740991, -53⟩ : Binary64).InRange := by
  refine ⟨by decide, by decide, by decide, by decide, by decide, ?_, by decide, by decide⟩
  norm_num [Binary64.toRat]

/-- C9 as stated fails on doubles: with the interpolants `r = 49` and `m = 7`
(not zero) the viscosity is `49.0 / 7.0 = 7.0`, while the inverse of the
formation volume factor `1.0 / 49.0` is `49.00000000000001` and divided by
`m` gives `7.000000000000001`. -/
theorem viscosity_spec_counterexample :
    OnDoubles.viscosity (fun _ => 49) (fun _ => 7) [100] = [⟨7881299347898368, -50⟩] ∧
    (49 : Binary64) ≠ 0 ∧ (7 : Binary64) ≠ 0 ∧
    (OnDoubles.formationVolumeFactor (fun _ => 49) [100]).map (fun B => 1 / B / 7) =
      [⟨7881299347898369, -50⟩] ∧
    OnDoubles.viscosity (fun _ => 49) (fun _ => 7) [100] ≠
      (OnDoubles.formationVolumeFactor (fun _ => 49) [100]).map (fun B => 1 / B / 7) ∧
    (⟨7881299347898368, -50⟩ : Binary64).toRat = 7 ∧
    (⟨7881299347898369, -50⟩ : Binary64).toRat = 7 + 1 / 2 ^ 50 ∧
    (⟨7881299347898368, -50⟩ : Binary64).InRange ∧
    (⟨7881299347898369, -50⟩ : Binary64).InRange := by
  refine ⟨by decide, by decide, by decide, by decide, by decide, ?_, ?_, by decide, by decide⟩
  · norm_num [Binary64.toRat]
  · norm_num [Binary64.toRat]

/-- C12 as stated fails on doubles: in the sample unit system, with the
ordinates 2 and 5 at the abscissae 1 and 3, `recipFvfGasViscDerivVapOil` of
the difference quotient is `1785.7142857142858`, while the quotient of the
converted differences is `1785.714285714286`, one unit in the last place
more. -/
theorem deriv_converters_commute_counterexample :
    (1 : Binary64) ≠ 3 ∧
    OnDoubles.recipFvfGasViscDerivVapOil OnDoubles.sampleUnits ((5 - 2) / (3 - 1)) =
      ⟨7853654484114286, -42⟩ ∧
    (OnDoubles.recipFvfGasVisc OnDoubles.sampleUnits 5 -
        OnDoubles.recipFvfGasVisc OnDoubles.sampleUnits 2) /
      (OnDoubles.vapOil OnDoubles.sampleUnits 3 - OnDoubles.vapOil OnDoubles.sampleUnits 1) =
      ⟨7853654484114287, -42⟩ ∧
    OnDoubles.recipFvfGasViscDerivVapOil OnDoubles.sampleUnits ((5 - 2) / (3 - 1)) ≠
      (OnDoubles.recipFvfGasVisc OnDoubles.sampleUnits 5 -
          OnDoubles.recipFvfGasVisc OnDoubles.sampleUnits 2) /
        (OnDoubles.vapOil OnDoubles.sampleUnits 3 - OnDoubles.vapOil OnDoubles.sampleUnits 1) ∧
    (⟨7853654484114286, -42⟩ : Binary64).InRange ∧
    (⟨7853654484114287, -42⟩ : Binary64).InRange := by
  refine ⟨by decide, by decide, by decide, by decide, by decide, by decide⟩

/-- C14 as stated fails on doubles: in the sample unit system the native
reciprocal FVF `b = 1.25` is stored as `1.25 * (1 / fvfScale)`, and the FVF
ordinate, the inverse of the stored value, is `0.3428571428571428`, while
`(1 / b) * fvfScale` is `0.34285714285714286`. -/
theorem getPvtCurve_unit_algebra_counterexample :
    (5 / 4 : Binary64) ≠ 0 ∧
    OnDoubles.getPvtCurveFVF
        (([5 / 4, 1, 1 / 2] : List Binary64).map (OnDoubles.recipFvf OnDoubles.sampleUnits)) =
      [⟨6176365203250965, -54⟩, ⟨7720456504063707, -54⟩, ⟨7720456504063707, -53⟩] ∧
    (1 / (5 / 4) : Binary64) * OnDoubles.fvfScale OnDoubles.sampleUnits =
      ⟨6176365203250966, -54⟩ ∧
    (⟨6176365203250965, -54⟩ : Binary64) ≠
      (1 / (5 / 4) : Binary64) * OnDoubles.fvfScale OnDoubles.sampleUnits ∧
    (⟨6176365203250965, -54⟩ : Binary64).InRange ∧
    (⟨6176365203250966, -54⟩ : Binary64).InRange := by
  refine ⟨by decide, by decide, by decide, by decide, by decide, by decide⟩

end ECLPVT
end Opm
